import Mathlib

/-
  Shallow embedding of pdfcpu's annotation validator
  (src/pkg/pdfcpu/validateAnnotations.go).

  The source file contains two concatenated revisions of the same design.
  The first revision (package pdfcpu, lines 1-1615) is embedded as the
  primary code; where the second revision (package validate) differs on a
  claim-relevant point, that function is embedded separately with a V2
  suffix.

  Conventions:
  - Go (value, error) returns become Except VErr with VErr.err carrying the
    error taxonomy of spec section 7; VErr.panicked models a Go runtime
    panic (nil-pointer dereference); VErr.fuelOut is the embedding's fuel
    exhaustion signal used to model the unguarded recursion of the source
    (a result of fuelOut for every fuel models divergence).
  - The generic field-accessor layer (validate<Kind>Entry) and the
    delegated validators (actions, destinations, file specs, ...) are not
    part of the source file; accessors are modelled from the spec section 6
    contract, delegated validators are abstracted into an Ext record of
    black boxes, as the spec declares them out of scope.
-/

set_option linter.unusedVariables false

namespace PdfAnnot

/-- PDF version, mirroring the Go enum PDFVersion (V10 = 0, ..., V17 = 7, V20 = 8). -/
abbrev PDFVersion := Nat

def V10 : PDFVersion := 0
def V11 : PDFVersion := 1
def V12 : PDFVersion := 2
def V13 : PDFVersion := 3
def V14 : PDFVersion := 4
def V15 : PDFVersion := 5
def V16 : PDFVersion := 6
def V17 : PDFVersion := 7
def V20 : PDFVersion := 8

/-- Go constants REQUIRED / OPTIONAL. -/
def REQUIRED : Bool := true
def OPTIONAL : Bool := false

inductive ValidationMode where
  | strict
  | relaxed
deriving DecidableEq

/-- Object-graph node: the tagged union of PDF object kinds
(PDFNull, PDFBoolean, PDFInteger, PDFFloat, PDFStringLiteral/PDFHexLiteral,
PDFName, PDFArray, PDFDict, PDFStreamDict, PDFIndirectRef).
Floats are modelled as rationals. -/
inductive PDFObject where
  | null
  | boolean (b : Bool)
  | integer (i : Int)
  | float (q : ℚ)
  | str (s : String)
  | name (s : String)
  | array (elems : List PDFObject)
  | dict (entries : List (String × PDFObject))
  | stream (entries : List (String × PDFObject))
  | indRef (objNr genNr : Nat)

/-- A PDF dictionary: association list keyed by name (Go map[string]PDFObject). -/
abbrev PDFDict := List (String × PDFObject)

abbrev PDFArray := List PDFObject

/-- Go dict.Find. -/
def dictFind (d : PDFDict) (key : String) : Option PDFObject :=
  (d.find? (fun e => e.1 == key)).map (·.2)

/-- Error taxonomy of spec section 7. -/
inductive ValError where
  | missingRequiredField (dictName entryName : String)
  | unsupportedInVersion (entryName : String)
  | unexpectedType (dictName entryName : String)
  | constraintViolation (dictName entryName : String)
  | unknownSubtype (subtype : String)
  | corruption (msg : String)
  | orderingViolation
  | crossReference (msg : String)
deriving DecidableEq

/-- Abnormal outcomes: an ordinary Go error return, a Go runtime panic,
or exhaustion of the embedding's recursion fuel (modelling divergence). -/
inductive VErr where
  | err (e : ValError)
  | panicked (msg : String)
  | fuelOut
deriving DecidableEq

abbrev VRes (α : Type) := Except VErr α

def throwErr {α : Type} (e : ValError) : VRes α := .error (.err e)

/-- Validation context: document version, strict/relaxed mode, and the
object table backing the indirect-reference resolver. -/
structure XRefTable where
  version : PDFVersion
  validationMode : ValidationMode
  table : List (Nat × PDFObject)

/-- Resolver (spec section 6): pass a direct object through, look an
indirect reference up in the object table; a dangling reference is an error. -/
def XRefTable.deref (xt : XRefTable) : PDFObject → VRes PDFObject
  | .indRef objNr _ =>
      match xt.table.find? (fun e => e.1 == objNr) with
      | some e => .ok e.2
      | none => throwErr (.crossReference "dangling indirect reference")
  | o => .ok o

/-- Resolver: resolve to a dictionary; a null target is absent (not an
error); any other non-dictionary target is an error. -/
def XRefTable.derefDict (xt : XRefTable) (o : PDFObject) : VRes (Option PDFDict) := do
  match ← xt.deref o with
  | .null => .ok none
  | .dict d => .ok (some d)
  | _ => .error (.err (.crossReference "dereference does not yield a dict"))

/-- Modelled from the spec: XRefTable.ValidateVersion (spec section 4.3(b)) -
document version below the floor is a version error, independent of mode. -/
def XRefTable.validateVersion (xt : XRefTable) (element : String)
    (sinceVersion : PDFVersion) : VRes Unit :=
  if xt.version < sinceVersion then throwErr (.unsupportedInVersion element)
  else .ok ()

/-- Delegated validators (spec section 6): action, destination, URI action,
file specification, sound, measure, movie activation, additional actions,
appearance, optional-content group/membership dictionaries, and the date
format check. Treated as black boxes per the spec. -/
structure Ext where
  actionDict : XRefTable → PDFDict → VRes Unit
  destination : XRefTable → PDFObject → VRes Unit
  uriActionDict : XRefTable → PDFDict → String → VRes Unit
  fileSpec : XRefTable → PDFObject → VRes Unit
  soundStreamDict : XRefTable → PDFDict → VRes Unit
  measureDict : XRefTable → PDFDict → PDFVersion → VRes Unit
  movieActivationDict : XRefTable → PDFDict → VRes Unit
  additionalActionsDict : XRefTable → PDFDict → String → VRes Unit
  appearanceDict : XRefTable → PDFDict → VRes Unit
  ocgDict : XRefTable → PDFDict → PDFVersion → VRes Unit
  ocmdDict : XRefTable → PDFDict → PDFVersion → VRes Unit
  isDateString : String → Bool

/-- All-accepting instantiation of the delegated validators, used to
exercise the core on concrete inputs. -/
def extOK : Ext where
  actionDict := fun _ _ => .ok ()
  destination := fun _ _ => .ok ()
  uriActionDict := fun _ _ _ => .ok ()
  fileSpec := fun _ _ => .ok ()
  soundStreamDict := fun _ _ => .ok ()
  measureDict := fun _ _ _ => .ok ()
  movieActivationDict := fun _ _ => .ok ()
  additionalActionsDict := fun _ _ _ => .ok ()
  appearanceDict := fun _ _ => .ok ()
  ocgDict := fun _ _ _ => .ok ()
  ocmdDict := fun _ _ _ => .ok ()
  isDateString := fun _ => true

/-- Modelled from the spec: the shared shape of the field-accessor layer
(spec section 6). Checks, in the contract's order: required/absent ->
MissingRequiredField; present with version below the floor ->
UnsupportedInVersion; wrong primitive kind -> UnexpectedType; value
predicate false -> ConstraintViolation; otherwise the typed value, or
none when absent and optional. The entry value is dereferenced first;
a null target counts as absent. -/
def validateTypedEntry {α : Type} (extract : PDFObject → Option α)
    (xt : XRefTable) (d : PDFDict) (dictName entryName : String)
    (required : Bool) (sinceVersion : PDFVersion) (pred : α → Bool) :
    VRes (Option α) :=
  match dictFind d entryName with
  | none =>
      if required then throwErr (.missingRequiredField dictName entryName)
      else .ok none
  | some o => do
      match ← xt.deref o with
      | .null =>
          if required then throwErr (.missingRequiredField dictName entryName)
          else .ok none
      | o' =>
          if xt.version < sinceVersion then
            throwErr (.unsupportedInVersion entryName)
          else
            match extract o' with
            | none => throwErr (.unexpectedType dictName entryName)
            | some a =>
                if pred a then .ok (some a)
                else throwErr (.constraintViolation dictName entryName)

def asName : PDFObject → Option String
  | .name s => some s
  | _ => none

def asString : PDFObject → Option String
  | .str s => some s
  | _ => none

def asInteger : PDFObject → Option Int
  | .integer i => some i
  | _ => none

def asBoolean : PDFObject → Option Bool
  | .boolean b => some b
  | _ => none

def asNumber : PDFObject → Option ℚ
  | .integer i => some (i : ℚ)
  | .float q => some q
  | _ => none

def asArray : PDFObject → Option PDFArray
  | .array a => some a
  | _ => none

def asDict : PDFObject → Option PDFDict
  | .dict d => some d
  | _ => none

def asStreamDict : PDFObject → Option PDFDict
  | .stream d => some d
  | _ => none

def isNumberObj : PDFObject → Bool
  | .integer _ => true
  | .float _ => true
  | _ => false

def isIntegerObj : PDFObject → Bool
  | .integer _ => true
  | _ => false

def isNameObj : PDFObject → Bool
  | .name _ => true
  | _ => false

def isArrayObj : PDFObject → Bool
  | .array _ => true
  | _ => false

def isStringOrStreamObj : PDFObject → Bool
  | .str _ => true
  | .stream _ => true
  | _ => false

def isBooleanOrStreamObj : PDFObject → Bool
  | .boolean _ => true
  | .stream _ => true
  | _ => false

def isStreamDictOrDictObj : PDFObject → Bool
  | .stream _ => true
  | .dict _ => true
  | _ => false

/-- Modelled from the spec: element check shared by the array-of-X
accessors - each element is dereferenced, null elements are skipped, a
non-null element of the wrong kind is an UnexpectedType error. -/
def validateArrayElems (xt : XRefTable) (dictName entryName : String)
    (elemOK : PDFObject → Bool) : PDFArray → VRes Unit
  | [] => .ok ()
  | v :: rest => do
      match ← xt.deref v with
      | .null => validateArrayElems xt dictName entryName elemOK rest
      | o =>
          if elemOK o then validateArrayElems xt dictName entryName elemOK rest
          else throwErr (.unexpectedType dictName entryName)

/-- Modelled from the spec: validateEntry - the untyped accessor (any
object kind), returning the dereferenced value. -/
def validateEntry (xt : XRefTable) (d : PDFDict) (dictName entryName : String)
    (required : Bool) (sinceVersion : PDFVersion) : VRes (Option PDFObject) :=
  validateTypedEntry some xt d dictName entryName required sinceVersion
    (fun _ => true)

/-- Modelled from the spec: validateNameEntry. -/
def validateNameEntry (xt : XRefTable) (d : PDFDict) (dictName entryName : String)
    (required : Bool) (sinceVersion : PDFVersion) (pred : String → Bool) :
    VRes (Option String) :=
  validateTypedEntry asName xt d dictName entryName required sinceVersion pred

/-- Modelled from the spec: validateStringEntry. -/
def validateStringEntry (xt : XRefTable) (d : PDFDict) (dictName entryName : String)
    (required : Bool) (sinceVersion : PDFVersion) (pred : String → Bool) :
    VRes (Option String) :=
  validateTypedEntry asString xt d dictName entryName required sinceVersion pred

/-- Modelled from the spec: validateIntegerEntry. -/
def validateIntegerEntry (xt : XRefTable) (d : PDFDict) (dictName entryName : String)
    (required : Bool) (sinceVersion : PDFVersion) (pred : Int → Bool) :
    VRes (Option Int) :=
  validateTypedEntry asInteger xt d dictName entryName required sinceVersion pred

/-- Modelled from the spec: validateBooleanEntry. -/
def validateBooleanEntry (xt : XRefTable) (d : PDFDict) (dictName entryName : String)
    (required : Bool) (sinceVersion : PDFVersion) (pred : Bool → Bool) :
    VRes (Option Bool) :=
  validateTypedEntry asBoolean xt d dictName entryName required sinceVersion pred

/-- Modelled from the spec: validateNumberEntry (integer or real). -/
def validateNumberEntry (xt : XRefTable) (d : PDFDict) (dictName entryName : String)
    (required : Bool) (sinceVersion : PDFVersion) (pred : ℚ → Bool) :
    VRes (Option ℚ) :=
  validateTypedEntry asNumber xt d dictName entryName required sinceVersion pred

/-- Modelled from the spec: validateDictEntry. -/
def validateDictEntry (xt : XRefTable) (d : PDFDict) (dictName entryName : String)
    (required : Bool) (sinceVersion : PDFVersion) (pred : PDFDict → Bool) :
    VRes (Option PDFDict) :=
  validateTypedEntry asDict xt d dictName entryName required sinceVersion pred

/-- Modelled from the spec: validateStreamDictEntry. -/
def validateStreamDictEntry (xt : XRefTable) (d : PDFDict) (dictName entryName : String)
    (required : Bool) (sinceVersion : PDFVersion) (pred : PDFDict → Bool) :
    VRes (Option PDFDict) :=
  validateTypedEntry asStreamDict xt d dictName entryName required sinceVersion pred

/-- Modelled from the spec: validateArrayEntry. -/
def validateArrayEntry (xt : XRefTable) (d : PDFDict) (dictName entryName : String)
    (required : Bool) (sinceVersion : PDFVersion) (pred : PDFArray → Bool) :
    VRes (Option PDFArray) :=
  validateTypedEntry asArray xt d dictName entryName required sinceVersion pred

/-- Modelled from the spec: validateNumberArrayEntry - an array entry whose
elements, after dereferencing, are numbers. -/
def validateNumberArrayEntry (xt : XRefTable) (d : PDFDict)
    (dictName entryName : String) (required : Bool) (sinceVersion : PDFVersion)
    (pred : PDFArray → Bool) : VRes (Option PDFArray) := do
  match ← validateArrayEntry xt d dictName entryName required sinceVersion pred with
  | none => .ok none
  | some a => do
      validateArrayElems xt dictName entryName isNumberObj a
      .ok (some a)

/-- Modelled from the spec: validateIntegerArrayEntry. -/
def validateIntegerArrayEntry (xt : XRefTable) (d : PDFDict)
    (dictName entryName : String) (required : Bool) (sinceVersion : PDFVersion)
    (pred : PDFArray → Bool) : VRes (Option PDFArray) := do
  match ← validateArrayEntry xt d dictName entryName required sinceVersion pred with
  | none => .ok none
  | some a => do
      validateArrayElems xt dictName entryName isIntegerObj a
      .ok (some a)

/-- Modelled from the spec: validateNameArrayEntry. -/
def validateNameArrayEntry (xt : XRefTable) (d : PDFDict)
    (dictName entryName : String) (required : Bool) (sinceVersion : PDFVersion)
    (pred : PDFArray → Bool) : VRes (Option PDFArray) := do
  match ← validateArrayEntry xt d dictName entryName required sinceVersion pred with
  | none => .ok none
  | some a => do
      validateArrayElems xt dictName entryName isNameObj a
      .ok (some a)

/-- Modelled from the spec: validateArrayArrayEntry (array of arrays). -/
def validateArrayArrayEntry (xt : XRefTable) (d : PDFDict)
    (dictName entryName : String) (required : Bool) (sinceVersion : PDFVersion)
    (pred : PDFArray → Bool) : VRes (Option PDFArray) := do
  match ← validateArrayEntry xt d dictName entryName required sinceVersion pred with
  | none => .ok none
  | some a => do
      validateArrayElems xt dictName entryName isArrayObj a
      .ok (some a)

/-- Modelled from the spec: validateRectangleEntry - a number array of
length four. -/
def validateRectangleEntry (xt : XRefTable) (d : PDFDict)
    (dictName entryName : String) (required : Bool) (sinceVersion : PDFVersion)
    (pred : PDFArray → Bool) : VRes (Option PDFArray) :=
  validateNumberArrayEntry xt d dictName entryName required sinceVersion
    (fun a => a.length == 4 && pred a)

/-- Modelled from the spec: validateStringOrStreamEntry. -/
def validateStringOrStreamEntry (xt : XRefTable) (d : PDFDict)
    (dictName entryName : String) (required : Bool) (sinceVersion : PDFVersion) :
    VRes Unit := do
  match ← validateTypedEntry (fun o => if isStringOrStreamObj o then some () else none)
      xt d dictName entryName required sinceVersion (fun _ => true) with
  | _ => .ok ()

/-- Modelled from the spec: validateBooleanOrStreamEntry. -/
def validateBooleanOrStreamEntry (xt : XRefTable) (d : PDFDict)
    (dictName entryName : String) (required : Bool) (sinceVersion : PDFVersion) :
    VRes Unit := do
  match ← validateTypedEntry (fun o => if isBooleanOrStreamObj o then some () else none)
      xt d dictName entryName required sinceVersion (fun _ => true) with
  | _ => .ok ()

/-- Modelled from the spec: validateStreamDictOrDictEntry. -/
def validateStreamDictOrDictEntry (xt : XRefTable) (d : PDFDict)
    (dictName entryName : String) (required : Bool) (sinceVersion : PDFVersion) :
    VRes Unit := do
  match ← validateTypedEntry (fun o => if isStreamDictOrDictObj o then some () else none)
      xt d dictName entryName required sinceVersion (fun _ => true) with
  | _ => .ok ()

/-- Modelled from the spec: validateDateEntry - a string entry whose value
must parse as a date (the parse itself is a delegated black box). -/
def validateDateEntry (ext : Ext) (xt : XRefTable) (d : PDFDict)
    (dictName entryName : String) (required : Bool) (sinceVersion : PDFVersion) :
    VRes (Option String) :=
  validateTypedEntry asString xt d dictName entryName required sinceVersion
    ext.isDateString

/-- Modelled from the spec: validateIndRefEntry - the raw entry (not
dereferenced) must be an indirect reference. -/
def validateIndRefEntry (xt : XRefTable) (d : PDFDict) (dictName entryName : String)
    (required : Bool) (sinceVersion : PDFVersion) : VRes (Option (Nat × Nat)) :=
  match dictFind d entryName with
  | none =>
      if required then throwErr (.missingRequiredField dictName entryName)
      else .ok none
  | some o =>
      if xt.version < sinceVersion then throwErr (.unsupportedInVersion entryName)
      else
        match o with
        | .indRef n g => .ok (some (n, g))
        | _ => throwErr (.unexpectedType dictName entryName)

/-- Modelled from the spec: validateFileSpecEntry - the entry protocol plus
the delegated file-specification validator. -/
def validateFileSpecEntry (ext : Ext) (xt : XRefTable) (d : PDFDict)
    (dictName entryName : String) (required : Bool) (sinceVersion : PDFVersion) :
    VRes Unit := do
  match ← validateEntry xt d dictName entryName required sinceVersion with
  | none => .ok ()
  | some o => ext.fileSpec xt o

/-- Modelled from the spec: validateSoundDictEntry - a required stream
dictionary handed to the delegated sound validator. -/
def validateSoundDictEntry (ext : Ext) (xt : XRefTable) (d : PDFDict)
    (dictName entryName : String) (required : Bool) (sinceVersion : PDFVersion) :
    VRes Unit := do
  match ← validateStreamDictEntry xt d dictName entryName required sinceVersion
      (fun _ => true) with
  | none => .ok ()
  | some sd => ext.soundStreamDict xt sd

/-- Modelled from the spec: validateAdditionalActions - an optional
dictionary entry handed to the delegated additional-actions validator with
its kind tag. -/
def validateAdditionalActions (ext : Ext) (xt : XRefTable) (d : PDFDict)
    (dictName entryName : String) (required : Bool) (sinceVersion : PDFVersion)
    (kind : String) : VRes Unit := do
  match ← validateDictEntry xt d dictName entryName required sinceVersion
      (fun _ => true) with
  | none => .ok ()
  | some aa => ext.additionalActionsDict xt aa kind

/-- Go helper memberOf. -/
def memberOf (s : String) (l : List String) : Bool := l.contains s

/-! ## Shared sub-structure validators (source lines 55-231, 762-786) -/

/-- validateBorderEffectDictEntry (source lines 55-79). -/
def validateBorderEffectEntry (xt : XRefTable) (dict : PDFDict)
    (dictName entryName : String) (required : Bool) (sinceVersion : PDFVersion) :
    VRes Unit := do
  match ← validateDictEntry xt dict dictName entryName required sinceVersion
      (fun _ => true) with
  | none => .ok ()
  | some d => do
      let dictName := "borderEffectDict"
      let _ ← validateNameEntry xt d dictName "S" OPTIONAL V10
        (fun s => s == "S" || s == "C")
      let _ ← validateNumberEntry xt d dictName "I" OPTIONAL V10
        (fun f => decide (0 ≤ f) && decide (f ≤ 2))
      .ok ()

/-- validateBorderStyleDict (source lines 81-115). -/
def validateBorderStyleDict (xt : XRefTable) (dict : PDFDict)
    (dictName entryName : String) (required : Bool) (sinceVersion : PDFVersion) :
    VRes Unit := do
  match ← validateDictEntry xt dict dictName entryName required sinceVersion
      (fun _ => true) with
  | none => .ok ()
  | some d => do
      let dictName := "borderStyleDict"
      let _ ← validateNameEntry xt d dictName "Type" OPTIONAL V10
        (fun s => s == "Border")
      let _ ← validateNumberEntry xt d dictName "W" OPTIONAL V10 (fun _ => true)
      let _ ← validateNameEntry xt d dictName "S" OPTIONAL V10
        (fun s => memberOf s ["S", "D", "B", "I", "U", "A"])
      let _ ← validateNumberArrayEntry xt d dictName "D" OPTIONAL V10
        (fun a => a.length ≤ 2)
      .ok ()

/-- validateIconFitDictEntry (source lines 117-154). -/
def validateIconFitEntry (xt : XRefTable) (dict : PDFDict)
    (dictName entryName : String) (required : Bool) (sinceVersion : PDFVersion) :
    VRes Unit := do
  match ← validateDictEntry xt dict dictName entryName required sinceVersion
      (fun _ => true) with
  | none => .ok ()
  | some d => do
      let dictName := "iconFitDict"
      let _ ← validateNameEntry xt d dictName "SW" OPTIONAL V10
        (fun s => memberOf s ["A", "B", "S", "N"])
      let _ ← validateNameEntry xt d dictName "S" OPTIONAL V10
        (fun s => s == "A" || s == "P")
      let _ ← validateNumberArrayEntry xt d dictName "A" OPTIONAL V10 (fun _ => true)
      let _ ← validateBooleanEntry xt d dictName "FB" OPTIONAL V10 (fun _ => true)
      .ok ()

/-- validateAppearanceCharacteristicsDictEntry (source lines 156-231). -/
def validateAppearanceCharacteristicsEntry (xt : XRefTable) (dict : PDFDict)
    (dictName entryName : String) (required : Bool) (sinceVersion : PDFVersion) :
    VRes Unit := do
  match ← validateDictEntry xt dict dictName entryName required sinceVersion
      (fun _ => true) with
  | none => .ok ()
  | some d => do
      let dictName := "appCharDict"
      let _ ← validateIntegerEntry xt d dictName "R" OPTIONAL V10 (fun _ => true)
      let _ ← validateNumberArrayEntry xt d dictName "BC" OPTIONAL V10 (fun _ => true)
      let _ ← validateNumberArrayEntry xt d dictName "BG" OPTIONAL V10 (fun _ => true)
      let _ ← validateStringEntry xt d dictName "CA" OPTIONAL V10 (fun _ => true)
      let _ ← validateStringEntry xt d dictName "RC" OPTIONAL V10 (fun _ => true)
      let _ ← validateStringEntry xt d dictName "AC" OPTIONAL V10 (fun _ => true)
      let _ ← validateStreamDictEntry xt d dictName "I" OPTIONAL V10 (fun _ => true)
      let _ ← validateStreamDictEntry xt d dictName "RI" OPTIONAL V10 (fun _ => true)
      let _ ← validateStreamDictEntry xt d dictName "IX" OPTIONAL V10 (fun _ => true)
      validateIconFitEntry xt d dictName "IF" OPTIONAL V10
      let _ ← validateIntegerEntry xt d dictName "TP" OPTIONAL V10
        (fun i => decide (0 ≤ i) && decide (i ≤ 6))
      .ok ()

/-! ## Subtype validators (source lines 233-1162) -/

/-- validateAnnotationDictText (source lines 233-261): the optional State
string is constrained to None/Unmarked and its presence makes StateModel
(constrained to Marked/Review) required. -/
def validateAnnotDictText (ext : Ext) (xt : XRefTable) (dict : PDFDict)
    (dictName : String) : VRes Unit := do
  let _ ← validateBooleanEntry xt dict dictName "Open" OPTIONAL V10 (fun _ => true)
  let _ ← validateNameEntry xt dict dictName "Name" OPTIONAL V10 (fun _ => true)
  let state ← validateStringEntry xt dict dictName "State" OPTIONAL V15
    (fun s => memberOf s ["None", "Unmarked"])
  let _ ← validateStringEntry xt dict dictName "StateModel" (state != none) V15
    (fun s => memberOf s ["Marked", "Review"])
  .ok ()

/-- validateActionOrDestination, first revision (source lines 263-281).
Note: when both A and Dest are absent this returns success - there is no
missing-required check, despite the caller's comment (line 311). -/
def validateActionOrDestination (ext : Ext) (xt : XRefTable) (dict : PDFDict)
    (dictName : String) (sinceVersion : PDFVersion) : VRes Unit := do
  match ← validateDictEntry xt dict dictName "A" OPTIONAL sinceVersion
      (fun _ => true) with
  | some d => ext.actionDict xt d
  | none => do
      match ← validateEntry xt dict dictName "Dest" OPTIONAL sinceVersion with
      | none => .ok ()
      | some obj => ext.destination xt obj

/-- validateActionOrDestination, second revision (source lines 1897-1915):
here a Link with neither A nor Dest is an error. -/
def validateActionOrDestinationV2 (ext : Ext) (xt : XRefTable) (dict : PDFDict)
    (dictName : String) : VRes Unit := do
  match ← validateDictEntry xt dict dictName "A" OPTIONAL V11 (fun _ => true) with
  | some d1 => ext.actionDict xt d1
  | none =>
      match dictFind dict "Dest" with
      | none => throwErr (.missingRequiredField dictName "A or Dest")
      | some d2 => ext.destination xt d2

/-- validateURIActionDictEntry (source lines 283-305). -/
def validateURIActionEntry (ext : Ext) (xt : XRefTable) (dict : PDFDict)
    (dictName entryName : String) (required : Bool) (sinceVersion : PDFVersion) :
    VRes Unit := do
  match ← validateDictEntry xt dict dictName entryName required sinceVersion
      (fun _ => true) with
  | none => .ok ()
  | some d => do
      let dictName := "URIActionDict"
      let _ ← validateNameEntry xt d dictName "Type" OPTIONAL V10
        (fun s => s == "Action")
      let _ ← validateNameEntry xt d dictName "S" REQUIRED V10 (fun s => s == "URI")
      ext.uriActionDict xt d dictName

/-- Version floor of the Link BS entry (source lines 336-339): 1.6 strict,
1.3 relaxed. -/
def linkBSSince (m : ValidationMode) : PDFVersion :=
  if m = .relaxed then V13 else V16

/-- validateAnnotationDictLink (source lines 307-342). -/
def validateAnnotDictLink (ext : Ext) (xt : XRefTable) (dict : PDFDict)
    (dictName : String) : VRes Unit := do
  validateActionOrDestination ext xt dict dictName V11
  let _ ← validateNameEntry xt dict dictName "H" OPTIONAL V12 (fun _ => true)
  validateURIActionEntry ext xt dict dictName "PA" OPTIONAL V13
  let _ ← validateNumberArrayEntry xt dict dictName "QuadPoints" OPTIONAL V16
    (fun a => a.length == 8)
  validateBorderStyleDict xt dict dictName "BS" OPTIONAL
    (linkBSSince xt.validationMode)

/-- Version floor of the FreeText Q entry (source lines 353-356). -/
def freeTextQSince (m : ValidationMode) : PDFVersion :=
  if m = .relaxed then V13 else V14

/-- Version floor of the FreeText RC entry (source lines 363-366). -/
def freeTextRCSince (m : ValidationMode) : PDFVersion :=
  if m = .relaxed then V14 else V15

/-- Version floor of the FreeText CL entry (source lines 379-382). -/
def freeTextCLSince (m : ValidationMode) : PDFVersion :=
  if m = .relaxed then V14 else V16

/-- validateAnnotationDictFreeTextPart1 (source lines 344-387). -/
def validateAnnotDictFreeTextPart1 (ext : Ext) (xt : XRefTable) (dict : PDFDict)
    (dictName : String) (sinceVersion : PDFVersion) : VRes Unit := do
  let _ ← validateStringEntry xt dict dictName "DA" REQUIRED V10 (fun _ => true)
  let _ ← validateIntegerEntry xt dict dictName "Q" OPTIONAL
    (freeTextQSince xt.validationMode) (fun i => decide (0 ≤ i) && decide (i ≤ 2))
  validateStringOrStreamEntry xt dict dictName "RC" OPTIONAL
    (freeTextRCSince xt.validationMode)
  let _ ← validateStringEntry xt dict dictName "DS" OPTIONAL V15 (fun _ => true)
  let _ ← validateNumberArrayEntry xt dict dictName "CL" OPTIONAL
    (freeTextCLSince xt.validationMode)
    (fun a => a.length == 4 || a.length == 6)
  .ok ()

/-- Version floor of the FreeText IT entry (source lines 392-395). -/
def freeTextITSince (m : ValidationMode) : PDFVersion :=
  if m = .relaxed then V14 else V16

/-- Version floor of the FreeText RD entry (source lines 411-414). -/
def freeTextRDSince (m : ValidationMode) : PDFVersion :=
  if m = .relaxed then V14 else V16

/-- Version floor of the FreeText BS entry (source lines 421-424). -/
def freeTextBSSince (m : ValidationMode) : PDFVersion :=
  if m = .relaxed then V13 else V16

/-- Version floor of the FreeText LE entry (source lines 431-434). -/
def freeTextLESince (m : ValidationMode) : PDFVersion :=
  if m = .relaxed then V14 else V16

/-- validateAnnotationDictFreeTextPart2 (source lines 389-438). -/
def validateAnnotDictFreeTextPart2 (ext : Ext) (xt : XRefTable) (dict : PDFDict)
    (dictName : String) (sinceVersion : PDFVersion) : VRes Unit := do
  let _ ← validateNameEntry xt dict dictName "IT" OPTIONAL
    (freeTextITSince xt.validationMode)
    (fun s => memberOf s
      ["FreeText", "FreeTextCallout", "FreeTextTypeWriter", "FreeTextTypewriter"])
  validateBorderEffectEntry xt dict dictName "BE" OPTIONAL V15
  let _ ← validateRectangleEntry xt dict dictName "RD" OPTIONAL
    (freeTextRDSince xt.validationMode) (fun _ => true)
  validateBorderStyleDict xt dict dictName "BS" OPTIONAL
    (freeTextBSSince xt.validationMode)
  let _ ← validateNameEntry xt dict dictName "LE" OPTIONAL
    (freeTextLESince xt.validationMode) (fun _ => true)
  .ok ()

/-- validateAnnotationDictFreeText (source lines 440-450). -/
def validateAnnotDictFreeText (ext : Ext) (xt : XRefTable) (dict : PDFDict)
    (dictName : String) : VRes Unit := do
  validateAnnotDictFreeTextPart1 ext xt dict dictName V13
  validateAnnotDictFreeTextPart2 ext xt dict dictName V13

/-- validateEntryMeasure (source lines 452-467). -/
def validateEntryMeasure (ext : Ext) (xt : XRefTable) (dict : PDFDict)
    (dictName : String) (required : Bool) (sinceVersion : PDFVersion) :
    VRes Unit := do
  match ← validateDictEntry xt dict dictName "Measure" required sinceVersion
      (fun _ => true) with
  | none => .ok ()
  | some d => ext.measureDict xt d sinceVersion

/-- validateCP (source line 469). -/
def validateCP (s : String) : Bool := s == "Inline" || s == "Top"

/-- Version floor of the Line LE entry, shared by the following IC entry
(source lines 488-491). -/
def lineLESince (m : ValidationMode) : PDFVersion :=
  if m = .relaxed then V13 else V14

/-- validateAnnotationDictLine (source lines 471-549). -/
def validateAnnotDictLine (ext : Ext) (xt : XRefTable) (dict : PDFDict)
    (dictName : String) : VRes Unit := do
  let _ ← validateNumberArrayEntry xt dict dictName "L" REQUIRED V10
    (fun a => a.length == 4)
  validateBorderStyleDict xt dict dictName "BS" OPTIONAL V10
  let _ ← validateNameArrayEntry xt dict dictName "LE" OPTIONAL
    (lineLESince xt.validationMode) (fun a => a.length == 2)
  let _ ← validateNumberArrayEntry xt dict dictName "IC" OPTIONAL
    (lineLESince xt.validationMode) (fun _ => true)
  let lle ← validateNumberEntry xt dict dictName "LLE" OPTIONAL V16
    (fun f => decide (0 < f))
  let _ ← validateNumberEntry xt dict dictName "LL" (lle != none) V16 (fun _ => true)
  let _ ← validateBooleanEntry xt dict dictName "Cap" OPTIONAL V16 (fun _ => true)
  let _ ← validateNameEntry xt dict dictName "IT" OPTIONAL V16 (fun _ => true)
  let _ ← validateNumberEntry xt dict dictName "LLO" OPTIONAL V17
    (fun f => decide (0 < f))
  let _ ← validateNameEntry xt dict dictName "CP" OPTIONAL V17 validateCP
  validateEntryMeasure ext xt dict dictName OPTIONAL V17
  let _ ← validateNumberArrayEntry xt dict dictName "CO" OPTIONAL V17
    (fun a => a.length == 2)
  .ok ()

/-- Version floor of the Circle/Square IC entry (source lines 562-565). -/
def circleSquareICSince (m : ValidationMode) : PDFVersion :=
  if m = .relaxed then V13 else V14

/-- validateAnnotationDictCircleOrSquare (source lines 551-581). -/
def validateAnnotDictCircleOrSquare (ext : Ext) (xt : XRefTable) (dict : PDFDict)
    (dictName : String) : VRes Unit := do
  validateBorderStyleDict xt dict dictName "BS" OPTIONAL V10
  let _ ← validateNumberArrayEntry xt dict dictName "IC" OPTIONAL
    (circleSquareICSince xt.validationMode) (fun _ => true)
  validateBorderEffectEntry xt dict dictName "BE" OPTIONAL V15
  let _ ← validateRectangleEntry xt dict dictName "RD" OPTIONAL V15 (fun _ => true)
  .ok ()

/-- validateEntryIT (source lines 583-605): intent names legal at exactly
version 1.6 or 1.7, with different sets. -/
def validateEntryIT (ext : Ext) (xt : XRefTable) (dict : PDFDict)
    (dictName : String) (required : Bool) (sinceVersion : PDFVersion) :
    VRes Unit := do
  let validateIntent : String → Bool := fun s =>
    if xt.version == V16 then s == "PolygonCloud"
    else if xt.version == V17 then
      memberOf s ["PolygonCloud", "PolyLineDimension", "PolygonDimension"]
    else false
  let _ ← validateNameEntry xt dict dictName "IT" required sinceVersion
    validateIntent
  .ok ()

/-- validateAnnotationDictPolyLine (source lines 607-654), shared by
Polygon and PolyLine. -/
def validateAnnotDictPolyLine (ext : Ext) (xt : XRefTable) (dict : PDFDict)
    (dictName : String) : VRes Unit := do
  let _ ← validateNumberArrayEntry xt dict dictName "Vertices" REQUIRED V10
    (fun _ => true)
  if dictName == "PolyLine" then do
    let _ ← validateNameArrayEntry xt dict dictName "LE" OPTIONAL V10
      (fun a => a.length == 2)
    pure ()
  else pure ()
  validateBorderStyleDict xt dict dictName "BS" OPTIONAL V10
  let _ ← validateNumberArrayEntry xt dict dictName "IC" OPTIONAL V14
    (fun a => a.length == 1 || a.length == 3 || a.length == 4)
  if dictName == "Polygon" then
    validateBorderEffectEntry xt dict dictName "BE" OPTIONAL V10
  else pure ()
  validateEntryIT ext xt dict dictName OPTIONAL V16

/-- validateTextMarkupAnnotation (source lines 656-664): one required
length-8 QuadPoints number array. -/
def validateTextMarkupAnnot (ext : Ext) (xt : XRefTable) (dict : PDFDict)
    (dictName : String) : VRes Unit := do
  let _ ← validateNumberArrayEntry xt dict dictName "QuadPoints" REQUIRED V10
    (fun a => a.length == 8)
  .ok ()

/-- validateAnnotationDictStamp (source lines 666-674). -/
def validateAnnotDictStamp (ext : Ext) (xt : XRefTable) (dict : PDFDict)
    (dictName : String) : VRes Unit := do
  let _ ← validateNameEntry xt dict dictName "Name" OPTIONAL V10 (fun _ => true)
  .ok ()

/-- validateAnnotationDictCaret (source lines 676-690). -/
def validateAnnotDictCaret (ext : Ext) (xt : XRefTable) (dict : PDFDict)
    (dictName : String) : VRes Unit := do
  let _ ← validateRectangleEntry xt dict dictName "RD" OPTIONAL V15 (fun _ => true)
  let _ ← validateNameEntry xt dict dictName "Sy" OPTIONAL V10
    (fun s => s == "P" || s == "None")
  .ok ()

/-- validateAnnotationDictInk (source lines 692-706). -/
def validateAnnotDictInk (ext : Ext) (xt : XRefTable) (dict : PDFDict)
    (dictName : String) : VRes Unit := do
  let _ ← validateArrayArrayEntry xt dict dictName "InkList" REQUIRED V10
    (fun _ => true)
  validateBorderStyleDict xt dict dictName "BS" OPTIONAL V10

/-- validateAnnotationDictPopup (source lines 708-728). Note: when a
present Parent reference dereferences to a nil dictionary without error,
the source returns early (success) and the Open check is skipped - the
guard on lines 719-721 returns the nil err. -/
def validateAnnotDictPopup (ext : Ext) (xt : XRefTable) (dict : PDFDict)
    (dictName : String) : VRes Unit := do
  match ← validateIndRefEntry xt dict dictName "Parent" OPTIONAL V10 with
  | none => do
      let _ ← validateBooleanEntry xt dict dictName "Open" OPTIONAL V10 (fun _ => true)
      .ok ()
  | some (n, g) =>
      match xt.derefDict (.indRef n g) with
      | .error e => .error e
      | .ok none => .ok ()
      | .ok (some _) => do
          let _ ← validateBooleanEntry xt dict dictName "Open" OPTIONAL V10
            (fun _ => true)
          .ok ()

/-- validateAnnotationDictFileAttachment (source lines 730-744). -/
def validateAnnotDictFileAttachment (ext : Ext) (xt : XRefTable) (dict : PDFDict)
    (dictName : String) : VRes Unit := do
  validateFileSpecEntry ext xt dict dictName "FS" REQUIRED V10
  let _ ← validateNameEntry xt dict dictName "Name" OPTIONAL V10 (fun _ => true)
  .ok ()

/-- validateAnnotationDictSound (source lines 746-760). -/
def validateAnnotDictSound (ext : Ext) (xt : XRefTable) (dict : PDFDict)
    (dictName : String) : VRes Unit := do
  validateSoundDictEntry ext xt dict dictName "Sound" REQUIRED V10
  let _ ← validateNameEntry xt dict dictName "Name" OPTIONAL V10 (fun _ => true)
  .ok ()

/-- validateMovieDict (source lines 762-786). Note the misspelled entry
key Ascpect on line 773, against the comment that documents Aspect. -/
def validateMovieDict (ext : Ext) (xt : XRefTable) (dict : PDFDict) :
    VRes Unit := do
  let dictName := "movieDict"
  validateFileSpecEntry ext xt dict dictName "F" REQUIRED V10
  let _ ← validateIntegerArrayEntry xt dict dictName "Ascpect" OPTIONAL V10
    (fun a => a.length == 2)
  let _ ← validateIntegerEntry xt dict dictName "Rotate" OPTIONAL V10 (fun _ => true)
  validateBooleanOrStreamEntry xt dict dictName "Poster" OPTIONAL V10

/-- validateAnnotationDictMovie (source lines 788-838). -/
def validateAnnotDictMovie (ext : Ext) (xt : XRefTable) (dict : PDFDict)
    (dictName : String) : VRes Unit := do
  let _ ← validateStringEntry xt dict dictName "T" OPTIONAL V10 (fun _ => true)
  match ← validateDictEntry xt dict dictName "Movie" REQUIRED V10 (fun _ => true) with
  | none => .error (.panicked "validateMovieDict: nil dict")
  | some d => do
      validateMovieDict ext xt d
      match dictFind dict "A" with
      | none => .ok ()
      | some obj => do
          match ← xt.deref obj with
          | .boolean _ => .ok ()
          | .dict ad => ext.movieActivationDict xt ad
          | _ => .ok ()

/-- validateAnnotationDictWidget (source lines 840-892). Note: the BS
border-style result on line 882 is computed but its error is discarded
(the source checks a stale err variable). -/
def validateAnnotDictWidget (ext : Ext) (xt : XRefTable) (dict : PDFDict)
    (dictName : String) : VRes Unit := do
  let _ ← validateNameEntry xt dict dictName "H" OPTIONAL V10
    (fun s => memberOf s ["N", "I", "O", "P", "T", "A"])
  validateAppearanceCharacteristicsEntry xt dict dictName "MK" OPTIONAL V10
  match ← validateDictEntry xt dict dictName "A" OPTIONAL V11 (fun _ => true) with
  | none => pure ()
  | some d => ext.actionDict xt d
  validateAdditionalActions ext xt dict dictName "AA" OPTIONAL V12 "fieldOrAnnot"
  let _ := validateBorderStyleDict xt dict dictName "BS" OPTIONAL V12
  let _ ← validateIndRefEntry xt dict dictName "Parent" OPTIONAL V10
  .ok ()

/-- validateAnnotationDictScreen (source lines 894-924). -/
def validateAnnotDictScreen (ext : Ext) (xt : XRefTable) (dict : PDFDict)
    (dictName : String) : VRes Unit := do
  let _ ← validateNameEntry xt dict dictName "T" OPTIONAL V10 (fun _ => true)
  validateAppearanceCharacteristicsEntry xt dict dictName "MK" OPTIONAL V10
  match ← validateDictEntry xt dict dictName "A" OPTIONAL V10 (fun _ => true) with
  | none => pure ()
  | some d => ext.actionDict xt d
  validateAdditionalActions ext xt dict dictName "AA" OPTIONAL V12 "fieldOrAnnot"

/-- validateAppearDictEntry (source lines 1320-1332). -/
def validateAppearDictEntry (ext : Ext) (xt : XRefTable) (dict : PDFDict)
    (dictName : String) (required : Bool) (sinceVersion : PDFVersion) :
    VRes Unit := do
  match ← validateDictEntry xt dict dictName "AP" required sinceVersion
      (fun _ => true) with
  | none => .ok ()
  | some d => ext.appearanceDict xt d

/-- validateAnnotationDictPrinterMark (source lines 926-944). -/
def validateAnnotDictPrinterMark (ext : Ext) (xt : XRefTable) (dict : PDFDict)
    (dictName : String) : VRes Unit := do
  let _ ← validateNameEntry xt dict dictName "MN" OPTIONAL V10 (fun _ => true)
  let _ ← validateIntegerEntry xt dict dictName "F" REQUIRED V11 (fun _ => true)
  validateAppearDictEntry ext xt dict dictName REQUIRED V12

/-- The FontFauxing array predicate of validateAnnotationDictTrapNet
(source lines 969-997): null elements are skipped, a dereference failure or
a non-Font target makes the whole array invalid, and the result is true
only if at least one Font dictionary was seen. -/
def fontDictArrayOK (xt : XRefTable) (a : PDFArray) : Bool :=
  go a false
where
  go : PDFArray → Bool → Bool
  | [], retValue => retValue
  | v :: rest, retValue =>
      match v with
      | .null => go rest retValue
      | v =>
          match xt.derefDict v with
          | .error _ => false
          | .ok none => go rest retValue
          | .ok (some d) =>
              match dictFind d "Type" with
              | some (.name s) => if s == "Font" then go rest true else false
              | _ => false

/-- validateAnnotationDictTrapNet (source lines 946-1007). -/
def validateAnnotDictTrapNet (ext : Ext) (xt : XRefTable) (dict : PDFDict)
    (dictName : String) : VRes Unit := do
  let _ ← validateDateEntry ext xt dict dictName "LastModified" OPTIONAL V10
  let _ ← validateArrayEntry xt dict dictName "Version" OPTIONAL V10 (fun _ => true)
  let _ ← validateNameArrayEntry xt dict dictName "AnnotStates" OPTIONAL V10
    (fun _ => true)
  let _ ← validateArrayEntry xt dict dictName "FontFauxing" OPTIONAL V10
    (fontDictArrayOK xt)
  let _ ← validateIntegerEntry xt dict dictName "F" REQUIRED V11 (fun _ => true)
  .ok ()

/-- The FixedPrint predicate of validateAnnotationDictWatermark (source
lines 1015-1044): each inner accessor failure makes the predicate false. -/
def fixedPrintDictOK (xt : XRefTable) (d : PDFDict) : Bool :=
  let dictName := "fixedPrintDict"
  (match validateNameEntry xt d dictName "Type" REQUIRED V10
      (fun s => s == "FixedPrint") with
   | .ok _ =>
      (match validateIntegerArrayEntry xt d dictName "Matrix" OPTIONAL V10
          (fun a => a.length == 6) with
       | .ok _ =>
          (match validateNumberEntry xt d dictName "H" OPTIONAL V10 (fun _ => true) with
           | .ok _ =>
              (match validateNumberEntry xt d dictName "V" OPTIONAL V10
                  (fun _ => true) with
               | .ok _ => true
               | .error _ => false)
           | .error _ => false)
       | .error _ => false)
   | .error _ => false)

/-- validateAnnotationDictWatermark (source lines 1009-1049). -/
def validateAnnotDictWatermark (ext : Ext) (xt : XRefTable) (dict : PDFDict)
    (dictName : String) : VRes Unit := do
  let _ ← validateDictEntry xt dict dictName "FixedPrint" OPTIONAL V10
    (fixedPrintDictOK xt)
  .ok ()

/-- validateAnnotationDict3D (source lines 1051-1079). -/
def validateAnnotDictThreeD (ext : Ext) (xt : XRefTable) (dict : PDFDict)
    (dictName : String) : VRes Unit := do
  validateStreamDictOrDictEntry xt dict dictName "3DD" REQUIRED V16
  let _ ← validateEntry xt dict dictName "3DV" OPTIONAL V16
  let _ ← validateDictEntry xt dict dictName "3DA" OPTIONAL V16 (fun _ => true)
  let _ ← validateBooleanEntry xt dict dictName "3DI" OPTIONAL V16 (fun _ => true)
  .ok ()

/-- The IC predicate of validateEntryIC (source lines 1084-1111): length 3
and every element, once dereferenced, in range when it is a number (other
kinds fall through the switch unchecked). -/
def icArrayOK (xt : XRefTable) (arr : PDFArray) : Bool :=
  if arr.length != 3 then false
  else go arr
where
  go : PDFArray → Bool
  | [] => true
  | v :: rest =>
      match xt.deref v with
      | .error _ => false
      | .ok n =>
          match n with
          | .integer i => if i < 0 || 1 < i then false else go rest
          | .float q => if q < 0 || 1 < q then false else go rest
          | _ => go rest

/-- validateEntryIC (source lines 1081-1116). -/
def validateEntryIC (ext : Ext) (xt : XRefTable) (dict : PDFDict)
    (dictName : String) (required : Bool) (sinceVersion : PDFVersion) :
    VRes Unit := do
  let _ ← validateNumberArrayEntry xt dict dictName "IC" required sinceVersion
    (icArrayOK xt)
  .ok ()

/-- validateAnnotationDictRedact (source lines 1118-1162). -/
def validateAnnotDictRedact (ext : Ext) (xt : XRefTable) (dict : PDFDict)
    (dictName : String) : VRes Unit := do
  let _ ← validateNumberArrayEntry xt dict dictName "QuadPoints" OPTIONAL V10
    (fun _ => true)
  validateEntryIC ext xt dict dictName OPTIONAL V10
  let _ ← validateStreamDictEntry xt dict dictName "RO" OPTIONAL V10 (fun _ => true)
  let _ ← validateStringEntry xt dict dictName "OverlayText" OPTIONAL V10
    (fun _ => true)
  let _ ← validateBooleanEntry xt dict dictName "Repeat" OPTIONAL V10 (fun _ => true)
  let _ ← validateStringEntry xt dict dictName "DA" REQUIRED V10 (fun _ => true)
  let _ ← validateIntegerEntry xt dict dictName "Q" OPTIONAL V10 (fun _ => true)
  .ok ()

/-- validateExDataDict (source lines 1164-1176). -/
def validateExDataDict (ext : Ext) (xt : XRefTable) (dict : PDFDict) :
    VRes Unit := do
  let dictName := "ExData"
  let _ ← validateNameEntry xt dict dictName "Type" OPTIONAL V10
    (fun s => s == "ExData")
  let _ ← validateNameEntry xt dict dictName "Subtype" REQUIRED V10
    (fun s => s == "Markup3D")
  .ok ()

/-- validateEntryP (source lines 1297-1318): the P entry must be an
indirect reference to a dictionary whose Type is Page. -/
def validateEntryP (ext : Ext) (xt : XRefTable) (dict : PDFDict)
    (dictName : String) (required : Bool) (sinceVersion : PDFVersion) :
    VRes Unit := do
  match ← validateIndRefEntry xt dict dictName "P" required sinceVersion with
  | none => .ok ()
  | some (n, g) => do
      match ← xt.derefDict (.indRef n g) with
      | none => throwErr (.crossReference "entry P is nil")
      | some d => do
          let _ ← validateNameEntry xt d "pageDict" "Type" REQUIRED V10
            (fun s => s == "Page")
          .ok ()

/-- validateBorderArrayLength (source lines 1334-1336). -/
def validateBorderArrayLength (a : PDFArray) : Bool :=
  a.length == 3 || a.length == 4

/-- validateOptionalContent (second-revision source lines 3176-3194; the
first revision calls the same routine from a sibling file): optional
dictionary whose required Type is OCG or OCMD, dispatched to the delegated
group/membership validators. -/
def validateOptionalContent (ext : Ext) (xt : XRefTable) (dict : PDFDict)
    (dictName entryName : String) (required : Bool) (sinceVersion : PDFVersion) :
    VRes Unit := do
  match ← validateDictEntry xt dict dictName entryName required sinceVersion
      (fun _ => true) with
  | none => .ok ()
  | some d => do
      match ← validateNameEntry xt d "optionalContent" "Type" REQUIRED sinceVersion
          (fun s => s == "OCG" || s == "OCMD") with
      | none => .error (.panicked "nil optional content type")
      | some t =>
          if t == "OCG" then ext.ocgDict xt d sinceVersion
          else ext.ocmdDict xt d sinceVersion

/-- validateAnnotationDictGeneral (source lines 1338-1427): the field set
common to every annotation dictionary; returns the discovered Subtype. -/
def validateAnnotDictGeneral (ext : Ext) (xt : XRefTable) (dict : PDFDict)
    (dictName : String) : VRes String := do
  let _ ← validateNameEntry xt dict dictName "Type" OPTIONAL V10
    (fun s => s == "Annot")
  let subtype ← validateNameEntry xt dict dictName "Subtype" REQUIRED V10
    (fun _ => true)
  let _ ← validateRectangleEntry xt dict dictName "Rect" REQUIRED V10 (fun _ => true)
  let _ ← validateStringEntry xt dict dictName "Contents" OPTIONAL V10 (fun _ => true)
  validateEntryP ext xt dict dictName OPTIONAL V10
  let _ ← validateStringEntry xt dict dictName "NM" OPTIONAL V14 (fun _ => true)
  let _ ← validateStringEntry xt dict dictName "M" OPTIONAL V11 (fun _ => true)
  let _ ← validateIntegerEntry xt dict dictName "F" OPTIONAL V11 (fun _ => true)
  validateAppearDictEntry ext xt dict dictName OPTIONAL V12
  let _ ← validateNameEntry xt dict dictName "AS" OPTIONAL V11 (fun _ => true)
  let _ ← validateNumberArrayEntry xt dict dictName "Border" OPTIONAL V10
    validateBorderArrayLength
  let _ ← validateNumberArrayEntry xt dict dictName "C" OPTIONAL V11 (fun _ => true)
  let _ ← validateIntegerEntry xt dict dictName "StructParent" OPTIONAL V13
    (fun _ => true)
  validateOptionalContent ext xt dict dictName "OC" OPTIONAL V15
  match subtype with
  | some s => .ok s
  | none => .error (.panicked "nil subtype")

/-! ## Subtype dispatch table and the recursive knot
(source lines 1429-1513). The Go source recurses into Popup, IRT and
AAPL:AKPDFAnnotationDictionary targets with no depth or visited-set guard;
the embedding threads an explicit fuel counter through that single knot
(validateAnnotDict), so a fuelOut result for every fuel models divergence
of the source. -/

/-- The recursive entry point threaded through the knot. -/
abbrev AnnotRec := XRefTable → PDFDict → VRes Bool

/-- A subtype descriptor of the dispatch table: validator routine, minimum
version, markup flag (source lines 1433-1437). -/
structure AnnotDescr where
  validate : Ext → XRefTable → PDFDict → String → VRes Unit
  sinceVersion : PDFVersion
  markup : Bool

/-- The subtype dispatch table (source lines 1438-1463). -/
def annotTable : List (String × AnnotDescr) := [
  ("Text", ⟨validateAnnotDictText, V10, true⟩),
  ("Link", ⟨validateAnnotDictLink, V10, false⟩),
  ("FreeText", ⟨validateAnnotDictFreeText, V13, true⟩),
  ("Line", ⟨validateAnnotDictLine, V13, true⟩),
  ("Polygon", ⟨validateAnnotDictPolyLine, V15, true⟩),
  ("PolyLine", ⟨validateAnnotDictPolyLine, V15, true⟩),
  ("Highlight", ⟨validateTextMarkupAnnot, V13, true⟩),
  ("Underline", ⟨validateTextMarkupAnnot, V13, true⟩),
  ("Squiggly", ⟨validateTextMarkupAnnot, V14, true⟩),
  ("StrikeOut", ⟨validateTextMarkupAnnot, V13, true⟩),
  ("Square", ⟨validateAnnotDictCircleOrSquare, V13, true⟩),
  ("Circle", ⟨validateAnnotDictCircleOrSquare, V13, true⟩),
  ("Stamp", ⟨validateAnnotDictStamp, V13, true⟩),
  ("Caret", ⟨validateAnnotDictCaret, V15, true⟩),
  ("Ink", ⟨validateAnnotDictInk, V13, true⟩),
  ("Popup", ⟨validateAnnotDictPopup, V13, false⟩),
  ("FileAttachment", ⟨validateAnnotDictFileAttachment, V13, true⟩),
  ("Sound", ⟨validateAnnotDictSound, V12, true⟩),
  ("Movie", ⟨validateAnnotDictMovie, V12, false⟩),
  ("Widget", ⟨validateAnnotDictWidget, V12, false⟩),
  ("Screen", ⟨validateAnnotDictScreen, V15, false⟩),
  ("PrinterMark", ⟨validateAnnotDictPrinterMark, V14, false⟩),
  ("TrapNet", ⟨validateAnnotDictTrapNet, V13, false⟩),
  ("Watermark", ⟨validateAnnotDictWatermark, V16, false⟩),
  ("3D", ⟨validateAnnotDictThreeD, V16, false⟩),
  ("Redact", ⟨validateAnnotDictRedact, V17, true⟩)]

/-- validateAAPLAKExtrasDictEntry (source lines 24-53). Note: when the
AAPL:AKExtras dictionary is present but has no
AAPL:AKPDFAnnotationDictionary entry, the source passes a nil dictionary
pointer into the annotation validator - a runtime panic. -/
def validateAAPLAKExtrasEntry (ext : Ext) (rec : AnnotRec) (xt : XRefTable)
    (dict : PDFDict) (dictName entryName : String) (required : Bool)
    (sinceVersion : PDFVersion) : VRes Unit := do
  match ← validateDictEntry xt dict dictName entryName required sinceVersion
      (fun _ => true) with
  | none => .ok ()
  | some d => do
      let dictName := "AAPLAKExtrasDict"
      let _ ← validateStringEntry xt d dictName "AAPL:AKAnnotationObject" OPTIONAL
        sinceVersion (fun _ => true)
      match ← validateDictEntry xt d dictName "AAPL:AKPDFAnnotationDictionary"
          OPTIONAL sinceVersion (fun _ => true) with
      | none => .error (.panicked "validateAnnotationDict on nil dict")
      | some ad => do
          let _ ← rec xt ad
          .ok ()

/-- validatePopupEntry (source lines 1178-1200): the Popup target must be a
dictionary whose Subtype is exactly Popup, then the target is run through
the full annotation validator. -/
def validatePopupEntry (ext : Ext) (rec : AnnotRec) (xt : XRefTable)
    (dict : PDFDict) (dictName entryName : String) (required : Bool)
    (sinceVersion : PDFVersion) : VRes Unit := do
  match ← validateDictEntry xt dict dictName entryName required sinceVersion
      (fun _ => true) with
  | none => .ok ()
  | some d => do
      let _ ← validateNameEntry xt d dictName "Subtype" REQUIRED V10
        (fun s => s == "Popup")
      let _ ← rec xt d
      .ok ()

/-- validateIRTEntry (source lines 1202-1217): the in-reply-to target is
run through the full annotation validator, with no constraint on its own
Subtype. -/
def validateIRTEntry (ext : Ext) (rec : AnnotRec) (xt : XRefTable)
    (dict : PDFDict) (dictName entryName : String) (required : Bool)
    (sinceVersion : PDFVersion) : VRes Unit := do
  match ← validateDictEntry xt dict dictName entryName required sinceVersion
      (fun _ => true) with
  | none => .ok ()
  | some d => do
      let _ ← rec xt d
      .ok ()

/-- Version floor of the markup Subj entry (source lines 1260-1263). -/
def markupSubjSince (m : ValidationMode) : PDFVersion :=
  if m = .relaxed then V14 else V15

/-- validateMarkupAnnotation (source lines 1219-1295): the field overlay
shared by markup subtypes. -/
def validateMarkupAnnot (ext : Ext) (rec : AnnotRec) (xt : XRefTable)
    (dict : PDFDict) : VRes Unit := do
  let dictName := "markupAnnot"
  let _ ← validateStringEntry xt dict dictName "T" OPTIONAL V11 (fun _ => true)
  validatePopupEntry ext rec xt dict dictName "Popup" OPTIONAL V13
  let _ ← validateNumberEntry xt dict dictName "CA" OPTIONAL V14 (fun _ => true)
  validateStringOrStreamEntry xt dict dictName "RC" OPTIONAL V15
  let _ ← validateDateEntry ext xt dict dictName "CreationDate" OPTIONAL V15
  validateIRTEntry ext rec xt dict dictName "IRT" OPTIONAL V15
  let _ ← validateStringEntry xt dict dictName "Subj" OPTIONAL
    (markupSubjSince xt.validationMode) (fun _ => true)
  let _ ← validateNameEntry xt dict dictName "RT" OPTIONAL V16
    (fun s => s == "R" || s == "Group")
  let _ ← validateNameEntry xt dict dictName "IT" OPTIONAL V16 (fun _ => true)
  match ← validateDictEntry xt dict dictName "ExData" OPTIONAL V17
      (fun _ => true) with
  | none => .ok ()
  | some d => validateExDataDict ext xt d

/-- validateAnnotationDictConcrete (source lines 1429-1484): dispatch-table
lookup; unknown Subtype is an error naming the offending string; otherwise
the version floor is enforced, the markup overlay runs when flagged, then
the variant validator. -/
def validateAnnotDictConcrete (ext : Ext) (rec : AnnotRec) (xt : XRefTable)
    (dict : PDFDict) (subtype : String) : VRes Unit :=
  match annotTable.find? (fun e => e.1 == subtype) with
  | some (k, v) => do
      xt.validateVersion k v.sinceVersion
      if v.markup then validateMarkupAnnot ext rec xt dict else pure ()
      v.validate ext xt dict k
  | none => throwErr (.unknownSubtype subtype)

/-- validateAnnotationDictSpecial (source lines 1486-1491). -/
def validateAnnotDictSpecial (ext : Ext) (rec : AnnotRec) (xt : XRefTable)
    (dict : PDFDict) (dictName : String) : VRes Unit :=
  validateAAPLAKExtrasEntry ext rec xt dict dictName "AAPL:AKExtras" OPTIONAL V10

/-- One unrolling of validateAnnotationDict (source lines 1493-1513):
general fields, concrete dispatch, special entries, and the isTrapNet
result. -/
def annotDictBody (ext : Ext) (rec : AnnotRec) (xt : XRefTable)
    (dict : PDFDict) : VRes Bool := do
  let dictName := "annotDict"
  let subtype ← validateAnnotDictGeneral ext xt dict dictName
  validateAnnotDictConcrete ext rec xt dict subtype
  validateAnnotDictSpecial ext rec xt dict dictName
  .ok (subtype == "TrapNet")

/-- validateAnnotationDict (source lines 1493-1513) with the embedding's
fuel counter on the unguarded Popup/IRT/AAPL recursion. -/
def validateAnnotDict (ext : Ext) : Nat → XRefTable → PDFDict → VRes Bool
  | 0 => fun _ _ => .error .fuelOut
  | fuel + 1 => annotDictBody ext (validateAnnotDict ext fuel)

/-! ## Page-tree walker (source lines 1515-1615) -/

/-- Resolution of one Annots array element (source lines 1534-1547): an
indirect reference is dereferenced (failure or a null target is a
corruption error), an inline dictionary passes through, anything else is a
corruption error. -/
def resolveAnnotElem (xt : XRefTable) : PDFObject → VRes PDFDict
  | .indRef n g =>
      match xt.derefDict (.indRef n g) with
      | .ok (some d) => .ok d
      | _ => throwErr (.corruption "validatePageAnnotations: corrupted annotation dict")
  | .dict d => .ok d
  | _ => throwErr (.corruption "validatePageAnnotations: corrupted array of indrefs")

/-- The loop of validatePageAnnotations (source lines 1526-1554): elements
are processed strictly in array order with the single hasTrapNet flag; an
element processed while the flag is set is the TrapNet-must-be-last
ordering violation, whatever that element is. -/
def pageAnnotsLoop (ext : Ext) (fuel : Nat) (xt : XRefTable) :
    List PDFObject → Bool → VRes Unit
  | [], _ => .ok ()
  | v :: rest, hasTrapNet =>
      if hasTrapNet then throwErr .orderingViolation
      else do
        let annotsDict ← resolveAnnotElem xt v
        let tn ← validateAnnotDict ext fuel xt annotsDict
        pageAnnotsLoop ext fuel xt rest tn

/-- validatePageAnnotations (source lines 1515-1557). -/
def validatePageAnnots (ext : Ext) (fuel : Nat) (xt : XRefTable)
    (dict : PDFDict) : VRes Unit := do
  match ← validateArrayEntry xt dict "pageDict" "Annots" OPTIONAL V10
      (fun _ => true) with
  | none => .ok ()
  | some arr => pageAnnotsLoop ext fuel xt arr false

/-- Go dict.IntEntry: the raw entry when it is an integer, no dereference. -/
def intEntry (d : PDFDict) (key : String) : Option Int :=
  match dictFind d key with
  | some (.integer i) => some i
  | _ => none

/-- Go dict.PDFArrayEntry: the raw entry when it is an array, else nil. -/
def arrayEntryDirect (d : PDFDict) (key : String) : Option PDFArray :=
  match dictFind d key with
  | some (.array a) => some a
  | _ => none

/-- Go dict.Type: the Type entry when it is a name. -/
def typeEntry (d : PDFDict) : Option String :=
  match dictFind d "Type" with
  | some (.name s) => some s
  | _ => none

/-- The kid loop of validatePagesAnnotations (source lines 1572-1612):
null kids are skipped; a kid dictionary is dispatched on its Type - Pages
recurses, Page validates that page, anything else (or a missing type) is a
corruption error. -/
def pagesKidsLoop (ext : Ext) (recPages : XRefTable → PDFDict → VRes Unit)
    (annotFuel : Nat) (xt : XRefTable) : List PDFObject → VRes Unit
  | [] => .ok ()
  | v :: rest =>
      match v with
      | .null => pagesKidsLoop ext recPages annotFuel xt rest
      | v => do
          let d ← (match xt.derefDict v with
            | .error e => .error e
            | .ok none => throwErr (.corruption "validatePagesAnnotations: pageNodeDict is null")
            | .ok (some d) => .ok d)
          match typeEntry d with
          | none => throwErr (.corruption "validatePagesAnnotations: missing pageNodeDict type")
          | some t =>
              if t == "Pages" then do
                recPages xt d
                pagesKidsLoop ext recPages annotFuel xt rest
              else if t == "Page" then do
                validatePageAnnots ext annotFuel xt d
                pagesKidsLoop ext recPages annotFuel xt rest
              else throwErr (.corruption "validatePagesAnnotations: expected dict type")

/-- validatePagesAnnotations (source lines 1559-1615): requires an integer
Count entry (else an ordinary error); then iterates the Kids array through
a raw pointer that is nil when Kids is missing or not an array - a runtime
panic, modelled by the panicked outcome. -/
def validatePagesAnnots (ext : Ext) : Nat → XRefTable → PDFDict → VRes Unit
  | 0, _, _ => .error .fuelOut
  | fuel + 1, xt, dict =>
      match intEntry dict "Count" with
      | none => throwErr (.corruption "validatePagesAnnotations: missing Count")
      | some _ =>
          match arrayEntryDirect dict "Kids" with
          | none => .error (.panicked "range over nil Kids array pointer")
          | some kids => pagesKidsLoop ext (validatePagesAnnots ext fuel) fuel xt kids

/-! ## Concrete fixtures -/

/-- A validation context with the given version, strict mode, empty table. -/
def xtV (v : PDFVersion) : XRefTable := ⟨v, .strict, []⟩

/-- A well-formed Rect value. -/
def rectObj : PDFObject := .array [.integer 0, .integer 0, .integer 1, .integer 1]

/-- An annotation dictionary with the given Subtype, a Rect, and extra
entries. -/
def baseAnnot (subtype : String) (extra : PDFDict) : PDFDict :=
  ("Subtype", .name subtype) :: ("Rect", rectObj) :: extra

/-- A minimal valid TrapNet annotation (required F since V11). -/
def trapNetDict : PDFDict := baseAnnot "TrapNet" [("F", .integer 0)]

/-- A minimal valid Link annotation carrying a destination. -/
def linkDict : PDFDict := baseAnnot "Link" [("Dest", .name "d")]

/-- A Link annotation with neither an A action nor a Dest destination. -/
def linkNoTarget : PDFDict := baseAnnot "Link" []

/-- A page dictionary with the given Annots array elements. -/
def pageWith (annots : List PDFObject) : PDFDict := [("Annots", .array annots)]

/-! ## Claim theorems -/

/-- C1: elements of a page's Annots array are validated strictly in array
order with a single last-was-TrapNet flag; once an element has resolved to
a TrapNet annotation, processing any later element - whatever it is - fails
with the ordering-violation error; concretely [TrapNet, Link] fails with
the ordering violation, [Link, TrapNet] succeeds, and [TrapNet] alone
succeeds. -/
theorem trapNet_must_be_last :
    (∀ (ext : Ext) (fuel : Nat) (xt : XRefTable) (v : PDFObject)
        (rest : List PDFObject),
        pageAnnotsLoop ext fuel xt (v :: rest) true =
          .error (.err .orderingViolation))
    ∧ validatePageAnnots extOK 1 (xtV V13) (pageWith [.dict trapNetDict, .dict linkDict]) =
        .error (.err .orderingViolation)
    ∧ validatePageAnnots extOK 1 (xtV V13) (pageWith [.dict linkDict, .dict trapNetDict]) =
        .ok ()
    ∧ validatePageAnnots extOK 1 (xtV V13) (pageWith [.dict trapNetDict]) = .ok () :=
  ⟨fun _ _ _ _ _ => rfl, rfl, rfl, rfl⟩

/-- C1 witness: the universal ordering part applied to a concrete later
element. -/
theorem trapNet_must_be_last_witness :
    pageAnnotsLoop extOK 1 (xtV V13) [.dict linkDict] true =
      .error (.err .orderingViolation) :=
  trapNet_must_be_last.1 extOK 1 (xtV V13) (.dict linkDict) []

/-- C2: contrary to the claim, the first-revision code accepts a Link
annotation with neither A nor Dest: validateActionOrDestination returns
success when both entries are absent (its Dest lookup is optional and an
absent optional entry is not an error), so the full validator accepts the
dictionary; the second revision of the same function does fail with the
missing-required-field error, matching the first revision's own comment
(A or Dest, required either or). -/
theorem link_neither_action_nor_dest :
    validateAnnotDict extOK 1 (xtV V13) linkNoTarget = .ok false
    ∧ validateActionOrDestination extOK (xtV V13) linkNoTarget "Link" V11 = .ok ()
    ∧ validateActionOrDestinationV2 extOK (xtV V13) linkNoTarget "Link" =
        .error (.err (.missingRequiredField "Link" "A or Dest")) :=
  ⟨rfl, rfl, rfl⟩

/-- A Movie annotation whose movie dictionary has a correctly spelled
Aspect entry of (illegal) length 3. -/
def movieAspect3 : PDFDict :=
  baseAnnot "Movie"
    [("Movie", .dict [("F", .str "f"),
      ("Aspect", .array [.integer 1, .integer 2, .integer 3])])]

/-- A Movie annotation whose movie dictionary has the misspelled Ascpect
entry of length 3. -/
def movieAscpect3 : PDFDict :=
  baseAnnot "Movie"
    [("Movie", .dict [("F", .str "f"),
      ("Ascpect", .array [.integer 1, .integer 2, .integer 3])])]

/-- A Movie annotation whose movie dictionary lacks the required F. -/
def movieNoF : PDFDict := baseAnnot "Movie" [("Movie", .dict [])]

/-- A Movie annotation whose movie dictionary has a length-2 Ascpect. -/
def movieAscpect2 : PDFDict :=
  baseAnnot "Movie"
    [("Movie", .dict [("F", .str "f"),
      ("Ascpect", .array [.integer 1, .integer 2])])]

/-- C7: the movie dictionary does require F (missing F is the
missing-required-field error), but the length-2 constraint is attached to
the misspelled key Ascpect (source line 773), not to Aspect as the claim
and the source comment state: a length-3 Aspect entry is accepted, while a
length-3 Ascpect entry is rejected with the constraint violation and a
length-2 Ascpect is accepted. -/
theorem movie_aspect_misspelled :
    validateAnnotDict extOK 1 (xtV V12) movieAspect3 = .ok false
    ∧ validateAnnotDict extOK 1 (xtV V12) movieAscpect3 =
        .error (.err (.constraintViolation "movieDict" "Ascpect"))
    ∧ validateAnnotDict extOK 1 (xtV V12) movieNoF =
        .error (.err (.missingRequiredField "movieDict" "F"))
    ∧ validateAnnotDict extOK 1 (xtV V12) movieAscpect2 = .ok false :=
  ⟨rfl, rfl, rfl, rfl⟩

/-- C10: validatePagesAnnotations on a node with an integer Count but no
Kids panics (nil array pointer dereference) instead of returning an error;
a node without Count returns an ordinary error; a node with both returns
normally; and in general a successful return requires both entries. -/
theorem pages_requires_count_and_kids :
    validatePagesAnnots extOK 1 (xtV V13) [("Count", .integer 1)] =
      .error (.panicked "range over nil Kids array pointer")
    ∧ validatePagesAnnots extOK 1 (xtV V13) [] =
        .error (.err (.corruption "validatePagesAnnotations: missing Count"))
    ∧ validatePagesAnnots extOK 1 (xtV V13)
        [("Count", .integer 0), ("Kids", .array [])] = .ok ()
    ∧ (∀ (ext : Ext) (xt : XRefTable) (d : PDFDict) (fuel : Nat) (i : Int),
        intEntry d "Count" = some i → arrayEntryDirect d "Kids" = none →
        validatePagesAnnots ext (fuel + 1) xt d =
          .error (.panicked "range over nil Kids array pointer"))
    ∧ (∀ (ext : Ext) (xt : XRefTable) (d : PDFDict) (fuel : Nat),
        intEntry d "Count" = none →
        validatePagesAnnots ext (fuel + 1) xt d =
          .error (.err (.corruption "validatePagesAnnotations: missing Count")))
    ∧ (∀ (ext : Ext) (xt : XRefTable) (d : PDFDict) (fuel : Nat),
        validatePagesAnnots ext fuel xt d = .ok () →
        (∃ i, intEntry d "Count" = some i) ∧ ∃ a, arrayEntryDirect d "Kids" = some a) := by
  refine ⟨rfl, rfl, rfl, ?_, ?_, ?_⟩
  · intro ext xt d fuel i hc hk
    simp [validatePagesAnnots, throwErr, hc, hk]
  · intro ext xt d fuel hc
    simp [validatePagesAnnots, throwErr, hc]
  · intro ext xt d fuel h
    match fuel with
    | 0 => exact absurd h (by simp [validatePagesAnnots])
    | fuel + 1 =>
      rw [validatePagesAnnots] at h
      revert h
      match hc : intEntry d "Count" with
      | none => intro h; exact absurd h (by simp [throwErr])
      | some i =>
        match hk : arrayEntryDirect d "Kids" with
        | none => intro h; exact absurd h (by simp)
        | some a => intro h; exact ⟨⟨i, rfl⟩, ⟨a, rfl⟩⟩

/-- C10 witness: the universal parts applied at concrete inputs. -/
theorem pages_requires_count_and_kids_witness :
    validatePagesAnnots extOK 1 (xtV V13) [("Count", .integer 2)] =
      .error (.panicked "range over nil Kids array pointer")
    ∧ validatePagesAnnots extOK 1 (xtV V13) [("X", .null)] =
        .error (.err (.corruption "validatePagesAnnotations: missing Count"))
    ∧ ((∃ i, intEntry [("Count", PDFObject.integer 0), ("Kids", PDFObject.array [])] "Count" = some i)
        ∧ ∃ a, arrayEntryDirect [("Count", PDFObject.integer 0), ("Kids", PDFObject.array [])] "Kids" = some a) :=
  ⟨pages_requires_count_and_kids.2.2.2.1 extOK (xtV V13) _ 0 2 rfl rfl,
   pages_requires_count_and_kids.2.2.2.2.1 extOK (xtV V13) _ 0 rfl,
   pages_requires_count_and_kids.2.2.2.2.2 extOK (xtV V13) _ 1 rfl⟩

/-! ### C3 fixtures: minimally-populated, well-formed annotations for
every subtype of the dispatch table. -/

/-- A length-8 QuadPoints array. -/
def quad8 : PDFObject :=
  .array [.integer 0, .integer 0, .integer 1, .integer 0, .integer 1,
    .integer 1, .integer 0, .integer 1]

def mText : PDFDict := baseAnnot "Text" []
def mLink : PDFDict := baseAnnot "Link" [("Dest", .name "d")]
def mFreeText : PDFDict := baseAnnot "FreeText" [("DA", .str "da")]
def mLine : PDFDict :=
  baseAnnot "Line" [("L", .array [.integer 0, .integer 0, .integer 1, .integer 1])]
def mPolygon : PDFDict :=
  baseAnnot "Polygon" [("Vertices", .array [.integer 0, .integer 0])]
def mPolyLine : PDFDict :=
  baseAnnot "PolyLine" [("Vertices", .array [.integer 0, .integer 0])]
def mHighlight : PDFDict := baseAnnot "Highlight" [("QuadPoints", quad8)]
def mUnderline : PDFDict := baseAnnot "Underline" [("QuadPoints", quad8)]
def mSquiggly : PDFDict := baseAnnot "Squiggly" [("QuadPoints", quad8)]
def mStrikeOut : PDFDict := baseAnnot "StrikeOut" [("QuadPoints", quad8)]
def mSquare : PDFDict := baseAnnot "Square" []
def mCircle : PDFDict := baseAnnot "Circle" []
def mStamp : PDFDict := baseAnnot "Stamp" []
def mCaret : PDFDict := baseAnnot "Caret" []
def mInk : PDFDict := baseAnnot "Ink" [("InkList", .array [.array []])]
def mPopup : PDFDict := baseAnnot "Popup" []
def mFileAttachment : PDFDict := baseAnnot "FileAttachment" [("FS", .str "fs")]
def mSound : PDFDict := baseAnnot "Sound" [("Sound", .stream [])]
def mMovie : PDFDict := baseAnnot "Movie" [("Movie", .dict [("F", .str "f")])]
def mWidget : PDFDict := baseAnnot "Widget" []
def mScreen : PDFDict := baseAnnot "Screen" []
def mPrinterMark : PDFDict :=
  baseAnnot "PrinterMark" [("F", .integer 0), ("AP", .dict [])]
def mTrapNet : PDFDict := baseAnnot "TrapNet" [("F", .integer 0)]
def mWatermark : PDFDict := baseAnnot "Watermark" []
def mThreeD : PDFDict := baseAnnot "3D" [("3DD", .stream [])]
def mRedact : PDFDict := baseAnnot "Redact" [("DA", .str "da")]

/-- C3 counterexample: the dispatch table gives Link the minimum version
1.0, yet no minimally-populated well-formed Link annotation validates at
document version 1.0: a Link must carry A or Dest, and
validateActionOrDestination checks both entries against a field floor of
1.1, so a Link with a Dest destination and a Link with an A action dict
each fail at version 1.0 with the unsupported-in-version error - refuting
success-whenever-the-version-is-at-least-Vmin for Link. -/
theorem link_fails_at_table_floor :
    (annotTable.find? (fun e => e.1 == "Link")).map (fun e => e.2.sinceVersion) =
      some V10
    ∧ validateAnnotDict extOK 1 (xtV V10) mLink =
        .error (.err (.unsupportedInVersion "Dest"))
    ∧ validateAnnotDict extOK 1 (xtV V10) (baseAnnot "Link" [("A", .dict [])]) =
        .error (.err (.unsupportedInVersion "A")) :=
  ⟨rfl, rfl, rfl⟩

/-- C3 (amended): for every subtype of the dispatch table, a
minimally-populated well-formed annotation of that subtype validates
successfully at (or above) the table's minimum version and fails with the
unsupported-in-version error one version below the floor - except Link:
its table floor is 1.0 (for Text, the other floor-1.0 subtype, no lower
document version exists), but its required action-or-destination content
is checked against a field floor of 1.1, so a well-formed minimal Link
fails at 1.0 (with either A or Dest present) and validates from 1.1 on; a
Subtype absent from the table fails with the unknown-subtype error naming
the offending string. Proved success versions: Text 1.0, Link 1.1 (despite
the 1.0 table floor), FreeText/Line/Highlight/Underline/StrikeOut/Square/
Circle/Stamp/Ink/Popup/FileAttachment/TrapNet 1.3, Squiggly/PrinterMark
1.4, Polygon/PolyLine/Caret/Screen 1.5, Sound/Movie/Widget 1.2,
Watermark/3D 1.6, Redact 1.7. -/
theorem dispatch_version_floors :
    validateAnnotDict extOK 1 (xtV V10) mText = .ok false
    ∧ (annotTable.find? (fun e => e.1 == "Link")).map (fun e => e.2.sinceVersion) =
        some V10
    ∧ validateAnnotDict extOK 1 (xtV V10) mLink =
        .error (.err (.unsupportedInVersion "Dest"))
    ∧ validateAnnotDict extOK 1 (xtV V10) (baseAnnot "Link" [("A", .dict [])]) =
        .error (.err (.unsupportedInVersion "A"))
    ∧ validateAnnotDict extOK 1 (xtV V11) mLink = .ok false
    ∧ validateAnnotDict extOK 1 (xtV V11) (baseAnnot "Link" [("A", .dict [])]) =
        .ok false
    ∧ validateAnnotDict extOK 1 (xtV V13) mFreeText = .ok false
    ∧ validateAnnotDict extOK 1 (xtV V12) mFreeText =
        .error (.err (.unsupportedInVersion "FreeText"))
    ∧ validateAnnotDict extOK 1 (xtV V13) mLine = .ok false
    ∧ validateAnnotDict extOK 1 (xtV V12) mLine =
        .error (.err (.unsupportedInVersion "Line"))
    ∧ validateAnnotDict extOK 1 (xtV V15) mPolygon = .ok false
    ∧ validateAnnotDict extOK 1 (xtV V14) mPolygon =
        .error (.err (.unsupportedInVersion "Polygon"))
    ∧ validateAnnotDict extOK 1 (xtV V15) mPolyLine = .ok false
    ∧ validateAnnotDict extOK 1 (xtV V14) mPolyLine =
        .error (.err (.unsupportedInVersion "PolyLine"))
    ∧ validateAnnotDict extOK 1 (xtV V13) mHighlight = .ok false
    ∧ validateAnnotDict extOK 1 (xtV V12) mHighlight =
        .error (.err (.unsupportedInVersion "Highlight"))
    ∧ validateAnnotDict extOK 1 (xtV V13) mUnderline = .ok false
    ∧ validateAnnotDict extOK 1 (xtV V12) mUnderline =
        .error (.err (.unsupportedInVersion "Underline"))
    ∧ validateAnnotDict extOK 1 (xtV V14) mSquiggly = .ok false
    ∧ validateAnnotDict extOK 1 (xtV V13) mSquiggly =
        .error (.err (.unsupportedInVersion "Squiggly"))
    ∧ validateAnnotDict extOK 1 (xtV V13) mStrikeOut = .ok false
    ∧ validateAnnotDict extOK 1 (xtV V12) mStrikeOut =
        .error (.err (.unsupportedInVersion "StrikeOut"))
    ∧ validateAnnotDict extOK 1 (xtV V13) mSquare = .ok false
    ∧ validateAnnotDict extOK 1 (xtV V12) mSquare =
        .error (.err (.unsupportedInVersion "Square"))
    ∧ validateAnnotDict extOK 1 (xtV V13) mCircle = .ok false
    ∧ validateAnnotDict extOK 1 (xtV V12) mCircle =
        .error (.err (.unsupportedInVersion "Circle"))
    ∧ validateAnnotDict extOK 1 (xtV V13) mStamp = .ok false
    ∧ validateAnnotDict extOK 1 (xtV V12) mStamp =
        .error (.err (.unsupportedInVersion "Stamp"))
    ∧ validateAnnotDict extOK 1 (xtV V15) mCaret = .ok false
    ∧ validateAnnotDict extOK 1 (xtV V14) mCaret =
        .error (.err (.unsupportedInVersion "Caret"))
    ∧ validateAnnotDict extOK 1 (xtV V13) mInk = .ok false
    ∧ validateAnnotDict extOK 1 (xtV V12) mInk =
        .error (.err (.unsupportedInVersion "Ink"))
    ∧ validateAnnotDict extOK 1 (xtV V13) mPopup = .ok false
    ∧ validateAnnotDict extOK 1 (xtV V12) mPopup =
        .error (.err (.unsupportedInVersion "Popup"))
    ∧ validateAnnotDict extOK 1 (xtV V13) mFileAttachment = .ok false
    ∧ validateAnnotDict extOK 1 (xtV V12) mFileAttachment =
        .error (.err (.unsupportedInVersion "FileAttachment"))
    ∧ validateAnnotDict extOK 1 (xtV V12) mSound = .ok false
    ∧ validateAnnotDict extOK 1 (xtV V11) mSound =
        .error (.err (.unsupportedInVersion "Sound"))
    ∧ validateAnnotDict extOK 1 (xtV V12) mMovie = .ok false
    ∧ validateAnnotDict extOK 1 (xtV V11) mMovie =
        .error (.err (.unsupportedInVersion "Movie"))
    ∧ validateAnnotDict extOK 1 (xtV V12) mWidget = .ok false
    ∧ validateAnnotDict extOK 1 (xtV V11) mWidget =
        .error (.err (.unsupportedInVersion "Widget"))
    ∧ validateAnnotDict extOK 1 (xtV V15) mScreen = .ok false
    ∧ validateAnnotDict extOK 1 (xtV V14) mScreen =
        .error (.err (.unsupportedInVersion "Screen"))
    ∧ validateAnnotDict extOK 1 (xtV V14) mPrinterMark = .ok false
    ∧ validateAnnotDict extOK 1 (xtV V13) mPrinterMark =
        .error (.err (.unsupportedInVersion "PrinterMark"))
    ∧ validateAnnotDict extOK 1 (xtV V13) mTrapNet = .ok true
    ∧ validateAnnotDict extOK 1 (xtV V12) mTrapNet =
        .error (.err (.unsupportedInVersion "TrapNet"))
    ∧ validateAnnotDict extOK 1 (xtV V16) mWatermark = .ok false
    ∧ validateAnnotDict extOK 1 (xtV V15) mWatermark =
        .error (.err (.unsupportedInVersion "Watermark"))
    ∧ validateAnnotDict extOK 1 (xtV V16) mThreeD = .ok false
    ∧ validateAnnotDict extOK 1 (xtV V15) mThreeD =
        .error (.err (.unsupportedInVersion "3D"))
    ∧ validateAnnotDict extOK 1 (xtV V17) mRedact = .ok false
    ∧ validateAnnotDict extOK 1 (xtV V16) mRedact =
        .error (.err (.unsupportedInVersion "Redact"))
    ∧ validateAnnotDict extOK 1 (xtV V17) (baseAnnot "Bogus" []) =
        .error (.err (.unknownSubtype "Bogus")) :=
  ⟨rfl, rfl, rfl, rfl, rfl, rfl, rfl, rfl, rfl, rfl, rfl, rfl, rfl, rfl,
   rfl, rfl, rfl, rfl, rfl, rfl, rfl, rfl, rfl, rfl, rfl, rfl, rfl, rfl,
   rfl, rfl, rfl, rfl, rfl, rfl, rfl, rfl, rfl, rfl, rfl, rfl, rfl, rfl,
   rfl, rfl, rfl, rfl, rfl, rfl, rfl, rfl, rfl, rfl, rfl, rfl, rfl⟩

/-- C5: every strict/relaxed version-floor pair of the first revision -
Link BS, the five FreeText floors (Q, RC, CL, IT, RD), FreeText BS and LE,
Line LE (shared with its IC entry), Circle/Square IC, and the markup
overlay Subj - satisfies relaxed-floor less-or-equal strict-floor; relaxed
mode never raises a floor. The four pairs named by the claim have exactly
the claimed values: Link BS 1.6 strict, 1.3 relaxed; FreeText Q 1.4/1.3
and CL 1.6/1.4; markup Subj 1.5/1.4. -/
theorem relaxed_never_raises_floor :
    (∀ m : ValidationMode,
      linkBSSince m ≤ linkBSSince .strict
      ∧ freeTextQSince m ≤ freeTextQSince .strict
      ∧ freeTextRCSince m ≤ freeTextRCSince .strict
      ∧ freeTextCLSince m ≤ freeTextCLSince .strict
      ∧ freeTextITSince m ≤ freeTextITSince .strict
      ∧ freeTextRDSince m ≤ freeTextRDSince .strict
      ∧ freeTextBSSince m ≤ freeTextBSSince .strict
      ∧ freeTextLESince m ≤ freeTextLESince .strict
      ∧ lineLESince m ≤ lineLESince .strict
      ∧ circleSquareICSince m ≤ circleSquareICSince .strict
      ∧ markupSubjSince m ≤ markupSubjSince .strict)
    ∧ linkBSSince .strict = V16 ∧ linkBSSince .relaxed = V13
    ∧ freeTextQSince .strict = V14 ∧ freeTextQSince .relaxed = V13
    ∧ freeTextCLSince .strict = V16 ∧ freeTextCLSince .relaxed = V14
    ∧ markupSubjSince .strict = V15 ∧ markupSubjSince .relaxed = V14 := by
  refine ⟨fun m => ?_, rfl, rfl, rfl, rfl, rfl, rfl, rfl, rfl⟩
  cases m <;> exact ⟨by decide, by decide, by decide, by decide, by decide,
    by decide, by decide, by decide, by decide, by decide, by decide⟩

/-- C5 witness: the universal part applied at relaxed mode. -/
theorem relaxed_never_raises_floor_witness :
    linkBSSince .relaxed ≤ linkBSSince .strict
    ∧ freeTextQSince .relaxed ≤ freeTextQSince .strict
    ∧ freeTextRCSince .relaxed ≤ freeTextRCSince .strict
    ∧ freeTextCLSince .relaxed ≤ freeTextCLSince .strict
    ∧ freeTextITSince .relaxed ≤ freeTextITSince .strict
    ∧ freeTextRDSince .relaxed ≤ freeTextRDSince .strict
    ∧ freeTextBSSince .relaxed ≤ freeTextBSSince .strict
    ∧ freeTextLESince .relaxed ≤ freeTextLESince .strict
    ∧ lineLESince .relaxed ≤ lineLESince .strict
    ∧ circleSquareICSince .relaxed ≤ circleSquareICSince .strict
    ∧ markupSubjSince .relaxed ≤ markupSubjSince .strict :=
  relaxed_never_raises_floor.1 .relaxed

/-! ### C8 fixtures: the TrapNet FontFauxing array. Object 1 of the table
is a Font dictionary, object 2 a non-Font dictionary. -/

def xtFonts : XRefTable :=
  ⟨V13, .strict,
    [(1, .dict [("Type", .name "Font")]), (2, .dict [("Type", .name "XObject")])]⟩

/-- A TrapNet annotation with the given FontFauxing array. -/
def trapNetWithFF (elems : List PDFObject) : PDFDict :=
  baseAnnot "TrapNet" [("F", .integer 0), ("FontFauxing", .array elems)]

/-- C8 counterexample: the claim says an all-null or empty FontFauxing
array is treated as not found rather than causing the annotation to be
rejected, but the accessor contract (spec section 6) rejects a present
entry whose predicate is false, and the source predicate returns false for
an empty array - so the empty-FontFauxing TrapNet annotation is rejected
with a constraint violation, not accepted. -/
theorem fontFauxing_empty_rejected :
    validateAnnotDict extOK 1 xtFonts (trapNetWithFF []) =
      .error (.err (.constraintViolation "TrapNet" "FontFauxing")) := rfl

/-- C8 (amended): every non-null FontFauxing element must dereference to a
dictionary typed Font - one non-Font element invalidates the whole array -
and null elements are skipped; but an empty or all-null array makes the
predicate false, so such an annotation is rejected with the
constraint-violation error rather than treated as having no FontFauxing. -/
theorem fontFauxing_font_elements :
    validateAnnotDict extOK 1 xtFonts (trapNetWithFF [.indRef 1 0, .null]) = .ok true
    ∧ validateAnnotDict extOK 1 xtFonts (trapNetWithFF [.indRef 1 0, .indRef 2 0]) =
        .error (.err (.constraintViolation "TrapNet" "FontFauxing"))
    ∧ validateAnnotDict extOK 1 xtFonts (trapNetWithFF [.null, .null]) =
        .error (.err (.constraintViolation "TrapNet" "FontFauxing"))
    ∧ fontDictArrayOK xtFonts [] = false
    ∧ fontDictArrayOK xtFonts [.null, .null] = false
    ∧ fontDictArrayOK xtFonts [.null, .indRef 1 0] = true
    ∧ fontDictArrayOK xtFonts [.indRef 2 0, .indRef 1 0] = false :=
  ⟨rfl, rfl, rfl, rfl, rfl, rfl, rfl⟩

/-! ### C4 fixtures: markup annotations with Popup targets. -/

/-- A Text (markup) annotation whose Popup entry is an inline dictionary
of the given Subtype. -/
def textWithPopup (target : PDFDict) : PDFDict :=
  baseAnnot "Text" [("Popup", .dict target)]

/-- C4: a present Popup entry of a markup annotation must resolve to a
dictionary whose Subtype is exactly Popup - any other Subtype fails with
the constraint-violation error, surfaced through the outer validation -
and on success the target dictionary is run through the full annotation
validator (so a Popup-subtyped target missing the required Rect fails with
that inner missing-required-field error, while a well-formed target
passes). -/
theorem popup_entry_subtype_and_recursion :
    (∀ (ext : Ext) (rec : AnnotRec) (xt : XRefTable) (outer inner : PDFDict)
        (dictName entryName : String) (required : Bool) (sinceVersion : PDFVersion)
        (s : String),
        dictFind outer entryName = some (.dict inner) →
        ¬ xt.version < sinceVersion →
        dictFind inner "Subtype" = some (.name s) →
        s ≠ "Popup" →
        validatePopupEntry ext rec xt outer dictName entryName required sinceVersion =
          .error (.err (.constraintViolation dictName "Subtype")))
    ∧ validateAnnotDict extOK 2 (xtV V13) (textWithPopup (baseAnnot "Link" [])) =
        .error (.err (.constraintViolation "markupAnnot" "Subtype"))
    ∧ validateAnnotDict extOK 2 (xtV V13) (textWithPopup (baseAnnot "Popup" [])) =
        .ok false
    ∧ validateAnnotDict extOK 2 (xtV V13)
        (textWithPopup [("Subtype", .name "Popup")]) =
        .error (.err (.missingRequiredField "annotDict" "Rect")) := by
  refine ⟨?_, rfl, rfl, rfl⟩
  intro ext rec xt outer inner dictName entryName required sinceVersion s
    hfind hver hsub hs
  have hbeq : (s == "Popup") = false := beq_eq_false_iff_ne.mpr hs
  simp [validatePopupEntry, validateDictEntry, validateNameEntry, validateTypedEntry,
    hfind, hsub, XRefTable.deref, asDict, asName, throwErr, hver, hbeq,
    Bind.bind, Except.bind, Pure.pure, Except.pure, V10]

/-- C4 witness: the universal part applied to a concrete markup annotation
whose Popup target carries Subtype Link. -/
theorem popup_entry_subtype_and_recursion_witness :
    validatePopupEntry extOK (validateAnnotDict extOK 1) (xtV V13)
      (textWithPopup (baseAnnot "Link" [])) "markupAnnot" "Popup" OPTIONAL V13 =
      .error (.err (.constraintViolation "markupAnnot" "Subtype")) :=
  popup_entry_subtype_and_recursion.1 extOK (validateAnnotDict extOK 1) (xtV V13)
    (textWithPopup (baseAnnot "Link" [])) (baseAnnot "Link" []) "markupAnnot"
    "Popup" OPTIONAL V13 "Link" rfl (by decide) rfl (by decide)

/-- A Text annotation with a State entry and no StateModel. -/
def textStateDict (s : String) : PDFDict :=
  baseAnnot "Text" [("State", .str s)]

/-- C6: for a Text annotation the optional State string is constrained to
the set None/Unmarked, and whenever State is present, StateModel
(constrained to Marked/Review) becomes required: State present with
StateModel absent fails with the missing-required-field error (for every
legal State value, and through the full pipeline), omitting both is
accepted, a State outside the set is a constraint violation, a StateModel
outside its set is a constraint violation, and legal pairs pass. -/
theorem text_state_requires_statemodel :
    (∀ s : String, memberOf s ["None", "Unmarked"] = true →
      validateAnnotDictText extOK (xtV V15) (textStateDict s) "Text" =
        .error (.err (.missingRequiredField "Text" "StateModel")))
    ∧ validateAnnotDict extOK 1 (xtV V15) (baseAnnot "Text" []) = .ok false
    ∧ validateAnnotDict extOK 1 (xtV V15) (textStateDict "None") =
        .error (.err (.missingRequiredField "Text" "StateModel"))
    ∧ validateAnnotDict extOK 1 (xtV V15)
        (baseAnnot "Text" [("State", .str "None"), ("StateModel", .str "Marked")]) =
        .ok false
    ∧ validateAnnotDict extOK 1 (xtV V15)
        (baseAnnot "Text" [("State", .str "Unmarked"), ("StateModel", .str "Review")]) =
        .ok false
    ∧ validateAnnotDict extOK 1 (xtV V15) (textStateDict "Closed") =
        .error (.err (.constraintViolation "Text" "State"))
    ∧ validateAnnotDict extOK 1 (xtV V15)
        (baseAnnot "Text" [("State", .str "None"), ("StateModel", .str "Bogus")]) =
        .error (.err (.constraintViolation "Text" "StateModel")) := by
  refine ⟨?_, rfl, rfl, rfl, rfl, rfl, rfl⟩
  intro s hs
  have : s = "None" ∨ s = "Unmarked" := by
    simpa [memberOf, List.contains] using hs
  rcases this with rfl | rfl <;> rfl

/-- C6 witness: the universal part applied at State None. -/
theorem text_state_requires_statemodel_witness :
    validateAnnotDictText extOK (xtV V15) (textStateDict "None") "Text" =
      .error (.err (.missingRequiredField "Text" "StateModel")) :=
  text_state_requires_statemodel.1 "None" rfl

/-! ### C9 fixtures: cyclic Popup/IRT reference structures. -/

/-- A markup (Text) annotation whose Popup is an indirect reference to
object 2. -/
def popupIRTA : PDFDict := baseAnnot "Text" [("Popup", .indRef 2 0)]

/-- A Popup-subtyped annotation whose IRT is an indirect reference back to
object 1. -/
def popupIRTB : PDFDict := baseAnnot "Popup" [("IRT", .indRef 1 0)]

/-- The claim's example document: A's Popup points to B whose IRT points
back to A. -/
def xtPopupIRT : XRefTable :=
  ⟨V15, .strict, [(1, .dict popupIRTA), (2, .dict popupIRTB)]⟩

/-- Two markup (Text) annotations whose IRT entries reference each other. -/
def irtCycleA : PDFDict := baseAnnot "Text" [("IRT", .indRef 2 0)]

def irtCycleB : PDFDict := baseAnnot "Text" [("IRT", .indRef 1 0)]

/-- The genuinely diverging document: an IRT-IRT cycle. -/
def xtIRT : XRefTable := ⟨V15, .strict, [(1, .dict irtCycleA), (2, .dict irtCycleB)]⟩

/-- C9 counterexample: on the claim's own example - annotation A whose
Popup points to B whose IRT points back to A (a cyclic Popup/IRT reference
structure) - validation terminates with success rather than recursing
unboundedly: the Popup target B must carry Subtype Popup, the Popup
subtype is not flagged markup in the dispatch table, so B's IRT entry is
never followed. -/
theorem popup_irt_cycle_terminates :
    dictFind popupIRTA "Popup" = some (.indRef 2 0)
    ∧ xtPopupIRT.derefDict (.indRef 2 0) = .ok (some popupIRTB)
    ∧ dictFind popupIRTB "IRT" = some (.indRef 1 0)
    ∧ xtPopupIRT.derefDict (.indRef 1 0) = .ok (some popupIRTA)
    ∧ validateAnnotDict extOK 3 xtPopupIRT popupIRTA = .ok false :=
  ⟨rfl, rfl, rfl, rfl, rfl⟩

/-- C9 (amended): the annotation validator recurses into Popup and IRT
targets with no recursion-depth counter or visited set, and for some input
the recursion is unbounded - namely two markup annotations whose IRT
entries reference each other: validation of either returns fuel-exhaustion
for every fuel bound. (The claim's Popup-to-IRT example instead
terminates, because a Popup target must itself have subtype Popup, which
the dispatch table does not flag as markup, so its IRT is never
followed.) -/
theorem irt_cycle_recursion_unbounded (fuel : Nat) :
    validateAnnotDict extOK fuel xtIRT irtCycleA = .error .fuelOut
    ∧ validateAnnotDict extOK fuel xtIRT irtCycleB = .error .fuelOut := by
  induction fuel with
  | zero => exact ⟨rfl, rfl⟩
  | succ n ih =>
    constructor
    · show annotDictBody extOK (validateAnnotDict extOK n) xtIRT irtCycleA =
        .error .fuelOut
      have h := ih.2
      simp [annotDictBody, validateAnnotDictGeneral, validateAnnotDictConcrete,
        validateAnnotDictSpecial, validateAAPLAKExtrasEntry, validateMarkupAnnot,
        validatePopupEntry, validateIRTEntry, validateAnnotDictText, annotTable,
        XRefTable.validateVersion, validateOptionalContent, validateEntryP,
        validateAppearDictEntry, validateIndRefEntry, validateNameEntry,
        validateStringEntry, validateIntegerEntry, validateBooleanEntry,
        validateNumberEntry, validateNumberArrayEntry, validateArrayEntry,
        validateRectangleEntry, validateTypedEntry, validateArrayElems,
        validateStringOrStreamEntry, validateDateEntry, validateDictEntry,
        dictFind, XRefTable.deref, XRefTable.derefDict, asName, asString,
        asInteger, asBoolean, asNumber, asArray, asDict, asStreamDict,
        isNumberObj, isStringOrStreamObj, memberOf, throwErr, Bind.bind,
        Except.bind, Pure.pure, Except.pure, V10, V11, V12, V13, V14, V15,
        V16, V17, xtIRT, irtCycleA, irtCycleB, baseAnnot, rectObj, extOK,
        REQUIRED, OPTIONAL, markupSubjSince, validateBorderArrayLength] at h ⊢
      rw [h]
    · show annotDictBody extOK (validateAnnotDict extOK n) xtIRT irtCycleB =
        .error .fuelOut
      have h := ih.1
      simp [annotDictBody, validateAnnotDictGeneral, validateAnnotDictConcrete,
        validateAnnotDictSpecial, validateAAPLAKExtrasEntry, validateMarkupAnnot,
        validatePopupEntry, validateIRTEntry, validateAnnotDictText, annotTable,
        XRefTable.validateVersion, validateOptionalContent, validateEntryP,
        validateAppearDictEntry, validateIndRefEntry, validateNameEntry,
        validateStringEntry, validateIntegerEntry, validateBooleanEntry,
        validateNumberEntry, validateNumberArrayEntry, validateArrayEntry,
        validateRectangleEntry, validateTypedEntry, validateArrayElems,
        validateStringOrStreamEntry, validateDateEntry, validateDictEntry,
        dictFind, XRefTable.deref, XRefTable.derefDict, asName, asString,
        asInteger, asBoolean, asNumber, asArray, asDict, asStreamDict,
        isNumberObj, isStringOrStreamObj, memberOf, throwErr, Bind.bind,
        Except.bind, Pure.pure, Except.pure, V10, V11, V12, V13, V14, V15,
        V16, V17, xtIRT, irtCycleA, irtCycleB, baseAnnot, rectObj, extOK,
        REQUIRED, OPTIONAL, markupSubjSince, validateBorderArrayLength] at h ⊢
      rw [h]

/-- C9 witness: the divergence theorem applied at a concrete fuel bound. -/
theorem irt_cycle_recursion_unbounded_witness :
    validateAnnotDict extOK 7 xtIRT irtCycleA = .error .fuelOut
    ∧ validateAnnotDict extOK 7 xtIRT irtCycleB = .error .fuelOut :=
  irt_cycle_recursion_unbounded 7

end PdfAnnot
